import Mathlib

/-!
Verification development for the GenXSOP Forecast Model Selection & Orchestration
Engine.  The Python services are shallowly embedded: SQLAlchemy rows become
structures, `Decimal` quantities become rationals, float quantities become reals,
raised domain exceptions become an `Except` error type, and calls into external
statistical libraries (statsmodels / prophet / torch) and the external LLM
recommender become explicitly quantified oracle parameters, so every theorem
holds for all possible behaviours of those collaborators.
-/

namespace GenXSOP

/-! ## Domain exceptions (app/core/exceptions.py, as used by the services) -/

inductive DomainExc
  | entityNotFound
  | businessRuleViolation
  | invalidStateTransition
  deriving DecidableEq, Repr

/-! ## Consensus workflow
Embedding of `ForecastConsensusService`
(src/backend/app/services/forecast_consensus_service.py) together with the row
shapes of `ForecastConsensus` (src/backend/app/models/forecast_consensus.py),
the request schemas (src/backend/app/schemas/forecast_consensus.py) and
`ForecastConsensusRepository.get_latest`
(src/backend/app/repositories/forecast_consensus_repository.py).
Month-granular dates are modelled as month indices (`Nat`), timestamps as
opaque ticks (`Nat`), `Decimal` as `ℚ`. -/

/-- The four statuses allowed by the `ck_forecast_consensus_status` check
constraint on the `forecast_consensus` table. -/
inductive ConsensusStatus
  | draft | proposed | approved | frozen
  deriving DecidableEq, Repr

structure ForecastConsensus where
  forecast_run_audit_id : Option Nat
  product_id : Nat
  period : Nat
  baseline_qty : ℚ
  sales_override_qty : ℚ
  marketing_uplift_qty : ℚ
  finance_adjustment_qty : ℚ
  constraint_cap_qty : Option ℚ
  pre_consensus_qty : ℚ
  final_consensus_qty : ℚ
  status : ConsensusStatus
  notes : Option String
  approved_by : Option Nat
  approved_at : Option Nat
  version : Nat
  created_by : Option Nat
  deriving DecidableEq, Repr

/-- The fields of `ForecastRunAudit` consulted by the consensus service. -/
structure ForecastRunAudit where
  id : Nat
  product_id : Nat
  deriving DecidableEq, Repr

/-- `ForecastConsensusCreate` request schema, with its pydantic defaults. -/
structure ForecastConsensusCreate where
  forecast_run_audit_id : Nat
  product_id : Nat
  period : Nat
  baseline_qty : ℚ
  sales_override_qty : ℚ := 0
  marketing_uplift_qty : ℚ := 0
  finance_adjustment_qty : ℚ := 0
  constraint_cap_qty : Option ℚ := none
  notes : Option String := none
  status : ConsensusStatus := .draft
  deriving DecidableEq, Repr

/-- `ForecastConsensusUpdate` request payload after
`model_dump(exclude_unset=True)`: the outer `Option` is "key present in the
payload", the inner `Option` is an explicit JSON null (which `_d` turns into 0
for the quantity fields and which clears the cap). -/
structure ForecastConsensusUpdate where
  baseline_qty : Option (Option ℚ) := none
  sales_override_qty : Option (Option ℚ) := none
  marketing_uplift_qty : Option (Option ℚ) := none
  finance_adjustment_qty : Option (Option ℚ) := none
  constraint_cap_qty : Option (Option ℚ) := none
  status : Option ConsensusStatus := none
  notes : Option String := none
  deriving DecidableEq, Repr

structure ForecastConsensusApproveRequest where
  notes : Option String := none
  deriving DecidableEq, Repr

/-- Decidable equality of `Except` results, for evaluating the services on
concrete inputs. -/
instance {ε α : Type} [DecidableEq ε] [DecidableEq α] :
    DecidableEq (Except ε α) := fun a b =>
  match a, b with
  | .error e, .error f =>
    if h : e = f then .isTrue (congrArg Except.error h)
    else .isFalse (fun c => h (Except.error.inj c))
  | .ok x, .ok y =>
    if h : x = y then .isTrue (congrArg Except.ok h)
    else .isFalse (fun c => h (Except.ok.inj c))
  | .error _, .ok _ => .isFalse (fun c => Except.noConfusion c)
  | .ok _, .error _ => .isFalse (fun c => Except.noConfusion c)

/-- `ForecastConsensusService._d`: coerce an optional Decimal, `None ↦ 0`. -/
def decOr0 (value : Option ℚ) : ℚ := value.getD 0

/-- `ForecastConsensusService._compute_final`: derive
`(pre_consensus_qty, final_consensus_qty)`. -/
def compute_final (baseline_qty sales_override_qty marketing_uplift_qty
    finance_adjustment_qty : ℚ) (constraint_cap_qty : Option ℚ) : ℚ × ℚ :=
  let pre0 := baseline_qty + sales_override_qty + marketing_uplift_qty +
    finance_adjustment_qty
  let pre := if pre0 < 0 then 0 else pre0
  let final0 := match constraint_cap_qty with
    | some cap => min pre cap
    | none => pre
  let final := if final0 < 0 then 0 else final0
  (pre, final)

/-- `ForecastConsensusRepository.get_latest` keyed by
`(period, forecast_run_audit_id)`: order by `version` descending, first row.
The `(forecast_run_audit_id, period, version)` unique constraint makes the
maximal-version row unique, so a max-fold is a faithful model. -/
def get_latest (store : List ForecastConsensus) (period : Nat)
    (auditId : Nat) : Option ForecastConsensus :=
  (store.filter fun r =>
      r.period == period && r.forecast_run_audit_id == some auditId).foldl
    (fun acc r =>
      match acc with
      | none => some r
      | some b => if b.version < r.version then some r else some b)
    none

/-- Persistent state seen by `create_consensus`: the forecast-run-audit table
and the consensus table. -/
structure ConsensusDb where
  run_audits : List ForecastRunAudit
  consensus_rows : List ForecastConsensus
  deriving DecidableEq, Repr

/-- `ForecastConsensusService.create_consensus`.  The audit lookup
(`db.query(ForecastRunAudit).filter(id == ...).first()`) is a `find?` on the
audit table; on success the new row is appended to the consensus table. -/
def create_consensus (db : ConsensusDb) (data : ForecastConsensusCreate)
    (user_id : Nat) : Except DomainExc (ForecastConsensus × ConsensusDb) :=
  match db.run_audits.find? (fun a => a.id == data.forecast_run_audit_id) with
  | none => .error .entityNotFound
  | some run_audit =>
    if run_audit.product_id ≠ data.product_id then
      .error .businessRuleViolation
    else
      let baseline := data.baseline_qty
      let sales := data.sales_override_qty
      let marketing := data.marketing_uplift_qty
      let finance := data.finance_adjustment_qty
      let cap := data.constraint_cap_qty
      let pf := compute_final baseline sales marketing finance cap
      let latest := get_latest db.consensus_rows data.period
        data.forecast_run_audit_id
      let version := match latest with
        | some l => l.version + 1
        | none => 1
      let row : ForecastConsensus :=
        { forecast_run_audit_id := some data.forecast_run_audit_id
          product_id := data.product_id
          period := data.period
          baseline_qty := baseline
          sales_override_qty := sales
          marketing_uplift_qty := marketing
          finance_adjustment_qty := finance
          constraint_cap_qty := cap
          pre_consensus_qty := pf.1
          final_consensus_qty := pf.2
          status := data.status
          notes := data.notes
          approved_by := none
          approved_at := none
          version := version
          created_by := some user_id }
      .ok (row, { db with consensus_rows := db.consensus_rows ++ [row] })

/-- `ForecastConsensusService.update_consensus` (the pure effect on the stored
row; the repository `update` merely persists the returned field values). -/
def update_consensus (consensus : ForecastConsensus)
    (data : ForecastConsensusUpdate) : Except DomainExc ForecastConsensus :=
  if consensus.status = .approved ∨ consensus.status = .frozen then
    .error .businessRuleViolation
  else if data.status = some .approved then
    .error .invalidStateTransition
  else
    let baseline := match data.baseline_qty with
      | some v => decOr0 v
      | none => consensus.baseline_qty
    let sales := match data.sales_override_qty with
      | some v => decOr0 v
      | none => consensus.sales_override_qty
    let marketing := match data.marketing_uplift_qty with
      | some v => decOr0 v
      | none => consensus.marketing_uplift_qty
    let finance := match data.finance_adjustment_qty with
      | some v => decOr0 v
      | none => consensus.finance_adjustment_qty
    let cap := match data.constraint_cap_qty with
      | some (some v) => some v
      | some none => none
      | none => consensus.constraint_cap_qty
    let pf := compute_final baseline sales marketing finance cap
    .ok { consensus with
          baseline_qty := baseline
          sales_override_qty := sales
          marketing_uplift_qty := marketing
          finance_adjustment_qty := finance
          constraint_cap_qty := cap
          pre_consensus_qty := pf.1
          final_consensus_qty := pf.2
          version := consensus.version + 1
          status := data.status.getD consensus.status
          notes := match data.notes with
            | some n => some n
            | none => consensus.notes }

/-- The `DemandPlan` row (src/backend/app/models/demand_plan.py).  The
surrogate `id` and the DB-managed `created_at`/`updated_at` timestamps are
omitted; nullable columns are `Option`s; columns with column defaults carry
them (`region` "Global", `channel` "All", `status` "draft", `version` 1). -/
structure DemandPlan where
  product_id : Nat
  period : Nat
  region : String := "Global"
  channel : String := "All"
  forecast_qty : ℚ
  adjusted_qty : Option ℚ := none
  actual_qty : Option ℚ := none
  consensus_qty : Option ℚ := none
  confidence : Option ℚ := none
  notes : Option String := none
  status : String := "draft"
  created_by : Option Nat := none
  approved_by : Option Nat := none
  version : Nat := 1
  deriving DecidableEq, Repr

/-- Modelled from the spec: `DemandPlanRepository.get_by_product_and_period`
(the repository itself is not under `src/`; spec §4.6 describes it as a lookup
of the demand-plan row keyed by `(product_id, period)`). -/
def demand_get_by_product_and_period (plans : List DemandPlan)
    (product_id period : Nat) : Option DemandPlan :=
  plans.find? (fun p => p.product_id == product_id && p.period == period)

/-- Update the first row matching `pred` in place (repository `update` on the
row previously returned by the keyed lookup). -/
def updateFirst (pred : DemandPlan → Bool) (f : DemandPlan → DemandPlan) :
    List DemandPlan → List DemandPlan
  | [] => []
  | p :: ps => if pred p then f p :: ps else p :: updateFirst pred f ps

/-- `ForecastConsensusService.approve_consensus`: the guard, the mutation of
the consensus row, and the demand-plan write-through.  `now` is the
`datetime.utcnow()` timestamp.  Python's `if body.notes:` treats `None` and
`""` alike, and `f"{notes}\n[Approved] {body.notes}".strip()` trims outer
whitespace.  The source reads `product_id`, `period`, `baseline_qty` and
`final_consensus_qty` for the write-through off `result`; approval does not
modify those fields, so they are read off `consensus` here (the same values
definitionally). -/
def approve_consensus (consensus : ForecastConsensus)
    (body : ForecastConsensusApproveRequest) (approver_id : Nat) (now : Nat)
    (plans : List DemandPlan) :
    Except DomainExc (ForecastConsensus × List DemandPlan) :=
  if consensus.status = .approved ∨ consensus.status = .frozen then
    .error .invalidStateTransition
  else
    let notes0 := consensus.notes.getD ""
    let notes := match body.notes with
      | some n =>
        if n = "" then notes0
        else (notes0 ++ "\n[Approved] " ++ n).trim
      | none => notes0
    let result := { consensus with
      status := ConsensusStatus.approved
      approved_by := some approver_id
      approved_at := some now
      notes := some notes }
    let key := fun (p : DemandPlan) =>
      p.product_id == consensus.product_id && p.period == consensus.period
    match plans.find? key with
    | some _ =>
      .ok (result, updateFirst key
        (fun p => { p with consensus_qty := some consensus.final_consensus_qty
                           version := p.version + 1 }) plans)
    | none =>
      .ok (result, plans ++ [{
        product_id := consensus.product_id
        period := consensus.period
        region := "Global"
        channel := "All"
        forecast_qty := consensus.baseline_qty
        consensus_qty := some consensus.final_consensus_qty
        status := "draft"
        created_by := some approver_id
        version := 1 }])

/-! ## Model Advisor
Embedding of `ForecastAdvisorService.recommend_model` and
`_recommend_with_genxai`
(src/backend/app/services/forecast_advisor_service.py).  The GenXAI/LLM round
trip (`runtime.execute` + `_extract_json_payload` + `float(...)` parses) is an
untrusted external collaborator; it is modelled as an `Except` parameter whose
error case covers every exception raised inside `_recommend_with_genxai`
(network failure, unparsable JSON, non-numeric confidence, ...), and whose ok
case carries the parsed payload fields.  `candidate_metrics`, `history_months`
and `data_quality_flags` influence only the prompt text sent to the LLM, so
they are absorbed into that quantified parameter. -/

/-- `ForecastAdvisorService._supported_models`. -/
def supported_models : List String :=
  ["moving_average", "ewma", "exp_smoothing", "seasonal_naive", "arima",
   "prophet"]

structure ForecastAdvisorDecision where
  recommended_model : String
  confidence : ℚ
  reason : String
  advisor_enabled : Bool
  fallback_used : Bool
  warnings : List String
  deriving DecidableEq, Repr

/-- Parsed JSON payload returned by the GenXAI agent: each field is the result
of `payload.get(key)`, `none` when the key is absent. -/
structure GenxaiPayload where
  recommended_model : Option String := none
  confidence : Option ℚ := none
  reason : Option String := none
  deriving DecidableEq, Repr

/-- `ForecastAdvisorService._recommend_with_genxai`, given the payload the
agent round trip produced: substitute `default_model` for an unsupported id
and clamp confidence into [0, 1]. -/
def recommend_with_genxai (default_model : String) (payload : GenxaiPayload) :
    ForecastAdvisorDecision :=
  let model0 := payload.recommended_model.getD default_model
  let model := if model0 ∈ supported_models then model0 else default_model
  let confidence := max 0 (min 1 (payload.confidence.getD (7/10)))
  { recommended_model := model
    confidence := confidence
    reason := payload.reason.getD "Model selected by GenXAI advisor."
    advisor_enabled := true
    fallback_used := false
    warnings := [] }

/-- `ForecastAdvisorService.recommend_model`.  `enabled` is
`bool(settings.OPENAI_API_KEY)`; `llm` is the outcome of the
`_recommend_with_genxai` round trip (only consulted on the advisor path).
Python's `if requested_model:` treats `None` and `""` alike. -/
def recommend_model (enabled : Bool) (llm : Except String GenxaiPayload)
    (requested_model : Option String) (default_model : String) :
    ForecastAdvisorDecision :=
  if requested_model.getD "" ≠ "" then
    { recommended_model := requested_model.getD ""
      confidence := 1
      reason := "Using user-selected model."
      advisor_enabled := false
      fallback_used := false
      warnings := [] }
  else if enabled = false then
    { recommended_model := default_model
      confidence := 13/20
      reason := "OPENAI_API_KEY not configured; using deterministic selector."
      advisor_enabled := false
      fallback_used := true
      warnings := ["llm_unavailable"] }
  else
    match llm with
    | .ok payload => recommend_with_genxai default_model payload
    | .error _ =>
      { recommended_model := default_model
        confidence := 3/5
        reason := "Advisor fallback used due to runtime error."
        advisor_enabled := true
        fallback_used := true
        warnings := ["advisor_runtime_error"] }

/-! ## Job scheduler
Embedding of `ForecastJobService`
(src/backend/app/services/forecast_job_service.py): `cancel_job` and the
worker body `_run_forecast_job`.  The worker's two database interactions —
the pickup check ("no-op if already cancelled") and the success write-back —
are modelled as separate transition events so that a user `cancel_job` call,
which runs in its own session and can commit between them, can be interleaved.
The exception path of `_run_forecast_job` (status `failed`) is not needed by
the claims about cancellation and is omitted; timestamps are opaque ticks. -/

inductive JobStatus
  | queued | running | completed | failed | cancelled
  deriving DecidableEq, Repr

structure JobRow where
  status : JobStatus
  error : Option String := none
  result_json : Option String := none
  started_at : Option Nat := none
  completed_at : Option Nat := none
  deriving DecidableEq, Repr

/-- `ForecastJobService.cancel_job` (the effect on an existing row): only a
`queued` or `running` job is mutated, to `cancelled` with the reason recorded
in `error` and `completed_at` stamped. -/
def cancel_job (now : Nat) (job : JobRow) : JobRow :=
  if job.status = .queued ∨ job.status = .running then
    { job with status := .cancelled
               completed_at := some now
               error := some "Cancelled by user" }
  else job

/-- Progress of the single worker task submitted for the job: it has not yet
run, it is between the pickup commit and the write-back commit, or it has
returned. -/
inductive WorkerPhase
  | idle | executing | done
  deriving DecidableEq, Repr

/-- A job row together with its worker task.  `work_executed` records whether
the forecast generation itself (the `ForecastService.generate_forecast` call)
was ever started for this job. -/
structure JobSystem where
  job : JobRow
  phase : WorkerPhase
  work_executed : Bool := false
  deriving DecidableEq, Repr

/-- Interleaving events: a user-issued `cancel_job`, the worker's pickup
(`if job.status == "cancelled": return` then `status = "running"`), and the
worker's success write-back (store the result payload, `status =
"completed"`). -/
inductive JobEvent
  | cancel (now : Nat)
  | pickup (now : Nat)
  | finish (now : Nat) (payload : String)
  deriving DecidableEq, Repr

/-- One interleaved step of the job-scheduler system.  Note that the source's
write-back (`_run_forecast_job` lines 236–240) sets `completed` and stores the
result without re-reading the row's status. -/
def jobStep : JobEvent → JobSystem → JobSystem
  | .cancel now, s => { s with job := cancel_job now s.job }
  | .pickup now, s =>
    if s.phase = .idle then
      if s.job.status = .cancelled then { s with phase := .done }
      else
        { s with phase := .executing
                 work_executed := true
                 job := { s.job with status := .running
                                     started_at := some now } }
    else s
  | .finish now payload, s =>
    if s.phase = .executing then
      { s with phase := .done
               job := { s.job with status := .completed
                                   error := none
                                   result_json := some payload
                                   completed_at := some now } }
    else s

/-- Run a schedule of interleaved events. -/
def jobRun (events : List JobEvent) (s : JobSystem) : JobSystem :=
  events.foldl (fun s e => jobStep e s) s

/-- A freshly enqueued job (`enqueue_forecast`): status `queued`, worker
submitted but not yet started. -/
def enqueuedJob : JobSystem :=
  { job := { status := .queued }, phase := .idle }

/-! ## Forecasting strategies
Embedding of src/backend/app/ml/strategies.py.  Python floats become reals;
a pandas frame `df[["ds","y"]]` becomes a `HistorySeries`: the value column
as a list plus the last period.  Periods are month-granular (HistorySeries
invariant in the spec), modelled as month indices, so
`last + relativedelta(months=i)` is `last + i`.  `round(x, 2)` is rounding to
the nearest multiple of 1/100 (Python rounds ties to even; no property below
depends on a tie).  Calls into statsmodels / prophet / torch are quantified
away as a `LibOracle`, whose `none` components stand for any raised exception
and whose `some` components carry the fitted values the library returned. -/

noncomputable section

/-- Python `round(x, 2)`. -/
def round2 (x : ℝ) : ℝ := (round (x * 100) : ℤ) / 100

/-- Python `round(x, 4)`. -/
def round4 (x : ℝ) : ℝ := (round (x * 10000) : ℤ) / 10000

/-- Arithmetic mean of a list (pandas `.mean()` / `np.mean`). -/
def listMean (xs : List ℝ) : ℝ := xs.sum / xs.length

/-- Sample standard deviation, pandas `.std()` (ddof = 1). -/
def sampleStd (xs : List ℝ) : ℝ :=
  Real.sqrt ((xs.map (fun x => (x - listMean xs) ^ 2)).sum /
    ((xs.length : ℝ) - 1))

/-- Population standard deviation, `np.std` (ddof = 0). -/
def popStd (xs : List ℝ) : ℝ :=
  Real.sqrt ((xs.map (fun x => (x - listMean xs) ^ 2)).sum / (xs.length : ℝ))

/-- `np.average(recent, weights=np.arange(1, window + 1))`: linear weights
1, 2, … aligned with the (chronological) tail. -/
def weightedAverage (recent : List ℝ) : ℝ :=
  (List.zipWith (fun j x => ((j + 1 : ℕ) : ℝ) * x)
    (List.range recent.length) recent).sum /
  ((List.range recent.length).map (fun j => ((j + 1 : ℕ) : ℝ))).sum

/-- `df["y"].iloc[-1]` (callers guard non-emptiness). -/
def lastVal (xs : List ℝ) : ℝ := xs.getLastD 0

/-- `df["y"].iloc[-2]` (callers guard length ≥ 2). -/
def prevVal (xs : List ℝ) : ℝ := xs.dropLast.getLastD 0

/-- `df["y"].diff()` without its leading NaN: consecutive differences. -/
def diffList (xs : List ℝ) : List ℝ :=
  List.zipWith (fun a b => a - b) xs.tail xs

/-- `.tail(k)`: the last `k` elements. -/
def takeLast (k : ℕ) (xs : List ℝ) : List ℝ := xs.drop (xs.length - k)

/-- `df["y"].ewm(alpha=alpha, adjust=False).mean().iloc[-1]`: the recursive
exponentially weighted mean `s₀ = y₀`, `sₜ = (1−α)·sₜ₋₁ + α·yₜ`. -/
def ewmLast (alpha : ℝ) : List ℝ → ℝ
  | [] => 0
  | x :: xs => xs.foldl (fun s y => (1 - alpha) * s + alpha * y) x

/-- History series: the `y` column of the frame plus the month index of the
last data point. -/
structure HistorySeries where
  y : List ℝ
  last : ℤ

structure ForecastPoint where
  period : ℤ
  predicted_qty : ℝ
  lower_bound : ℝ
  upper_bound : ℝ
  confidence : ℝ

/-- The strategy parameters read outside any library call, pre-parsed
(`params.get(key)`; `none` means key absent / blank so the default applies).
Keys consumed only inside a library fit (`p`, `d`, `q`, `damped_trend`,
`changepoint_prior_scale`, `hidden_size`, `epochs`, ...) are absorbed into
the `LibOracle`. -/
structure StrategyParams where
  window : Option ℤ := none
  trend_weight : Option ℝ := none
  alpha : Option ℝ := none
  lookback_window : Option ℤ := none

/-- `BaseForecastStrategy._build_future_periods`: the next `horizon` months
after the last data point. -/
def build_future_periods (last : ℤ) (horizon : ℕ) : List ℤ :=
  (List.range horizon).map (fun (i : ℕ) => last + (i : ℤ) + 1)

/-- `MovingAverageStrategy.forecast`. -/
def moving_average_forecast (params : StrategyParams) (h : HistorySeries)
    (horizon : ℕ) : List ForecastPoint :=
  let configured_window := max 2 (min 12 (params.window.getD 6))
  let trend_weight := max 0 (min 1 (params.trend_weight.getD (1/2)))
  let n := h.y.length
  let window := min configured_window.toNat n
  let recent := h.y.drop (n - window)
  let weighted_avg := weightedAverage recent
  let trend := if 2 ≤ n then (lastVal h.y - prevVal h.y) * (3/10) else 0
  let std := if 1 < n then sampleStd h.y else weighted_avg * (1/10)
  (List.range horizon).map (fun (i : ℕ) =>
    let base := weighted_avg + trend * ((i : ℝ) + 1) * trend_weight
    { period := h.last + (i : ℤ) + 1
      predicted_qty := round2 (max 0 base)
      lower_bound := round2 (max 0 (base - (49/25) * std))
      upper_bound := round2 (base + (49/25) * std)
      confidence := 80 })

/-- `EWMAStrategy.forecast`. -/
def ewma_forecast (params : StrategyParams) (h : HistorySeries)
    (horizon : ℕ) : List ForecastPoint :=
  let alpha := max (1/20) (min (19/20) (params.alpha.getD (7/20)))
  let trend_weight := max 0 (min 1 (params.trend_weight.getD (2/5)))
  let n := h.y.length
  let e := ewmLast alpha h.y
  let trend := if 4 ≤ n then listMean (takeLast 3 (diffList h.y)) else 0
  let std := if 1 < n then sampleStd h.y else max 1 (e * (1/10))
  (List.range horizon).map (fun (i : ℕ) =>
    let base := e + trend * ((i : ℝ) + 1) * trend_weight
    { period := h.last + (i : ℤ) + 1
      predicted_qty := round2 (max 0 base)
      lower_bound := round2 (max 0 (base - (41/25) * std))
      upper_bound := round2 (max 0 (base + (41/25) * std))
      confidence := 82 })

/-- `SeasonalNaiveStrategy.forecast`: degrade to EWMA below 12 months, else
repeat the value from 12 months prior, cyclically. -/
def seasonal_naive_forecast (params : StrategyParams) (h : HistorySeries)
    (horizon : ℕ) : List ForecastPoint :=
  if h.y.length < 12 then ewma_forecast params h horizon
  else
    let n := h.y.length
    let std := if 1 < n then sampleStd h.y else max 1 (listMean h.y * (1/10))
    (List.range horizon).map (fun (i : ℕ) =>
      let v := h.y.getD (n - 12 + (i % 12)) 0
      { period := h.last + (i : ℤ) + 1
        predicted_qty := round2 (max 0 v)
        lower_bound := round2 (max 0 (v - (41/25) * std))
        upper_bound := round2 (max 0 (v + (41/25) * std))
        confidence := 78 })

/-- Outcomes of the external statistical-library calls.  `none` = the call (or
anything else inside the guarding `try`) raised; `some` = the values it
returned: Holt-Winters `(fit.forecast(horizon), np.std(fit.resid))`, ARIMA
`(predicted_mean[i], conf_int[i][0], conf_int[i][1])` rows, Prophet
`(yhat, yhat_lower, yhat_upper)` rows, LSTM `(preds_norm,
np.std(residuals))`. -/
structure LibOracle where
  holt : Option (List ℝ × ℝ) := none
  arima : Option (List (ℝ × ℝ × ℝ)) := none
  prophet : Option (List (ℝ × ℝ × ℝ)) := none
  lstm : Option (List ℝ × ℝ) := none

/-- `ExponentialSmoothingStrategy.forecast`: degrade to MovingAverage below 4
points or on any library failure. -/
def exp_smoothing_forecast (o : LibOracle) (params : StrategyParams)
    (h : HistorySeries) (horizon : ℕ) : List ForecastPoint :=
  if h.y.length < 4 then moving_average_forecast params h horizon
  else
    match o.holt with
    | none => moving_average_forecast params h horizon
    | some (vals, resid_std) =>
      ((build_future_periods h.last horizon).zip vals).map (fun pv =>
        { period := pv.1
          predicted_qty := round2 (max 0 pv.2)
          lower_bound := round2 (max 0 (pv.2 - (49/25) * resid_std))
          upper_bound := round2 (pv.2 + (49/25) * resid_std)
          confidence := 85 })

/-- `ARIMAStrategy.forecast`: degrade to ExponentialSmoothing below 12 points
or on any library failure (an out-of-range `vals[i]` / `ci[i]` inside the
`try` also raises and degrades). -/
def arima_forecast (o : LibOracle) (params : StrategyParams)
    (h : HistorySeries) (horizon : ℕ) : List ForecastPoint :=
  if h.y.length < 12 then exp_smoothing_forecast o params h horizon
  else
    match o.arima with
    | none => exp_smoothing_forecast o params h horizon
    | some rows =>
      if rows.length < horizon then exp_smoothing_forecast o params h horizon
      else
        ((build_future_periods h.last horizon).zip rows).map (fun pr =>
          { period := pr.1
            predicted_qty := round2 (max 0 pr.2.1)
            lower_bound := round2 (max 0 pr.2.2.1)
            upper_bound := round2 (max 0 pr.2.2.2)
            confidence := 88 })

/-- `ProphetStrategy.forecast`: degrade to ExponentialSmoothing below 12
points or on any library failure (a `future_periods[i]` overrun inside the
`try` also raises and degrades). -/
def prophet_forecast (o : LibOracle) (params : StrategyParams)
    (h : HistorySeries) (horizon : ℕ) : List ForecastPoint :=
  if h.y.length < 12 then exp_smoothing_forecast o params h horizon
  else
    match o.prophet with
    | none => exp_smoothing_forecast o params h horizon
    | some rows =>
      if horizon < rows.length then exp_smoothing_forecast o params h horizon
      else
        ((build_future_periods h.last horizon).zip rows).map (fun pr =>
          { period := pr.1
            predicted_qty := round2 (max 0 pr.2.1)
            lower_bound := round2 (max 0 pr.2.2.1)
            upper_bound := round2 (max 0 pr.2.2.2)
            confidence := 95 })

/-- `LSTMStrategy.forecast`: degrade to ExponentialSmoothing when history is
shorter than `max(8, lookback_window + 1)` or on any library failure. -/
def lstm_forecast (o : LibOracle) (params : StrategyParams)
    (h : HistorySeries) (horizon : ℕ) : List ForecastPoint :=
  let lookback := max 3 (min 24 (params.lookback_window.getD 12))
  if (h.y.length : ℤ) < max 8 (lookback + 1) then
    exp_smoothing_forecast o params h horizon
  else
    match o.lstm with
    | none => exp_smoothing_forecast o params h horizon
    | some (preds_norm, resid0) =>
      let y_mean := listMean h.y
      let y_std := popStd h.y
      let scale := if 1/100000000 < y_std then y_std
        else max 1 (|y_mean| * (1/10))
      let preds := preds_norm.map (fun p => max 0 (p * scale + y_mean))
      let resid_std := if resid0 ≤ 1/100000000 then
          (if 1 < h.y.length then popStd h.y else max 1 (y_mean * (1/10)))
        else resid0
      ((build_future_periods h.last horizon).zip preds).map (fun pv =>
        { period := pv.1
          predicted_qty := round2 pv.2
          lower_bound := round2 (max 0 (pv.2 - (41/25) * resid_std))
          upper_bound := round2 (max 0 (pv.2 + (41/25) * resid_std))
          confidence := 86 })

/-- The closed set of strategies in src/backend/app/ml/strategies.py. -/
inductive StrategyId
  | moving_average | ewma | exp_smoothing | seasonal_naive | arima
  | prophet | lstm
  deriving DecidableEq, Repr

/-- Each strategy's `min_data_months` property. -/
def min_data_months : StrategyId → ℕ
  | .moving_average => 3
  | .ewma => 4
  | .exp_smoothing => 12
  | .seasonal_naive => 12
  | .arima => 12
  | .prophet => 24
  | .lstm => 18

/-- Polymorphic dispatch (`ForecastContext.execute` /
`strategy.forecast`). -/
def strategy_forecast (sid : StrategyId) (o : LibOracle)
    (params : StrategyParams) (h : HistorySeries) (horizon : ℕ) :
    List ForecastPoint :=
  match sid with
  | .moving_average => moving_average_forecast params h horizon
  | .ewma => ewma_forecast params h horizon
  | .exp_smoothing => exp_smoothing_forecast o params h horizon
  | .seasonal_naive => seasonal_naive_forecast params h horizon
  | .arima => arima_forecast o params h horizon
  | .prophet => prophet_forecast o params h horizon
  | .lstm => lstm_forecast o params h horizon

/-- Well-formedness of the library outcomes for a given horizon: a successful
fit returns exactly `horizon` forecast values (the statsmodels / prophet
output contract; torchs autoregressive loop produces `horizon` values by
construction). -/
def LibOracle.wf (o : LibOracle) (horizon : ℕ) : Prop :=
  (∀ vals resid_std, o.holt = some (vals, resid_std) →
    vals.length = horizon) ∧
  (∀ rows, o.arima = some rows → rows.length = horizon) ∧
  (∀ rows, o.prophet = some rows → rows.length = horizon) ∧
  (∀ preds resid, o.lstm = some (preds, resid) → preds.length = horizon)

/-- The shape contract of §8 of the spec: exactly `horizon` points, periods
strictly increasing at a monthly step starting the month after the history's
last period, and non-negative predictions. -/
def pointsOk (h : HistorySeries) (horizon : ℕ) (out : List ForecastPoint) :
    Prop :=
  out.length = horizon ∧
  ∀ i (hi : i < out.length),
    (out.get ⟨i, hi⟩).period = h.last + (i : ℤ) + 1 ∧
    0 ≤ (out.get ⟨i, hi⟩).predicted_qty

/-! ## Backtest engine
Embedding of `ForecastService._run_backtests`
(src/backend/app/services/forecast_service.py lines 469–528).  The candidate
list comes from `ForecastModelFactory` (not part of the engine core; the spec
makes it an explicit `candidateModels` argument of `runBacktests`), so the
embedding is parametric in the candidates; a candidate carries the one-step
predictor `float(create_context(model_id).execute(train, 1)[0]
["predicted_qty"])`. -/

structure BacktestCandidate where
  model_id : String
  min_data_months : ℕ
  predict : List ℝ → ℝ

structure BacktestMetric where
  model_type : String
  mape : ℝ
  wape : ℝ
  rmse : ℝ
  mae : ℝ
  bias : ℝ
  hit_rate : ℝ
  period_count : ℕ
  score : ℝ

/-- Walk-forward samples for one candidate: for each split in
`range(max(min_history, n-6), n)`, the pair (one-step prediction on
`series[:split]`, actual `series[split]`). -/
def walkSamples (c : BacktestCandidate) (y : List ℝ) : List (ℝ × ℝ) :=
  let n := y.length
  let minH := max 3 c.min_data_months
  let start := max minH (n - 6)
  ((List.range (n - start)).map (fun k => start + k)).map
    (fun split => (c.predict (y.take split), y.getD split 0))

def absErrors (s : List (ℝ × ℝ)) : List ℝ := s.map (fun pa => |pa.1 - pa.2|)

/-- Percentage errors, skipped where the actual is 0. -/
def pctErrors (s : List (ℝ × ℝ)) : List ℝ :=
  s.filterMap (fun pa =>
    if pa.2 = 0 then none else some (|pa.1 - pa.2| / |pa.2|))

/-- Signed percentage errors, skipped where the actual is 0. -/
def biasPcts (s : List (ℝ × ℝ)) : List ℝ :=
  s.filterMap (fun pa =>
    if pa.2 = 0 then none else some ((pa.1 - pa.2) / pa.2))

def actualSum (s : List (ℝ × ℝ)) : ℝ := (s.map (fun pa => |pa.2|)).sum

/-- Hits: percentage errors within 20%. -/
def hitCount (s : List (ℝ × ℝ)) : ℕ :=
  (pctErrors s).countP (fun x => decide (x ≤ 1/5))

def rawMape (s : List (ℝ × ℝ)) : ℝ :=
  if pctErrors s = [] then 0
  else (pctErrors s).sum / ((pctErrors s).length : ℝ) * 100

def rawWape (s : List (ℝ × ℝ)) : ℝ :=
  if 0 < actualSum s then (absErrors s).sum / actualSum s * 100 else 0

def rawRmse (s : List (ℝ × ℝ)) : ℝ :=
  Real.sqrt ((s.map (fun pa => (pa.1 - pa.2) ^ 2)).sum / (s.length : ℝ))

def rawMae (s : List (ℝ × ℝ)) : ℝ := (absErrors s).sum / (s.length : ℝ)

def rawBias (s : List (ℝ × ℝ)) : ℝ :=
  if biasPcts s = [] then 0
  else (biasPcts s).sum / ((biasPcts s).length : ℝ) * 100

def rawHitRate (s : List (ℝ × ℝ)) : ℝ :=
  if pctErrors s = [] then 0
  else (hitCount s : ℝ) / ((pctErrors s).length : ℝ) * 100

/-- The body of the per-candidate loop of `_run_backtests`: `none` when the
candidate is skipped (`n <= min_history`, or zero samples), otherwise its
rounded metrics row.  The composite score is rounded after combining the
unrounded mape and wape. -/
def backtest_metric (y : List ℝ) (c : BacktestCandidate) :
    Option BacktestMetric :=
  let n := y.length
  let minH := max 3 c.min_data_months
  if n ≤ minH then none
  else
    let s := walkSamples c y
    if s.length = 0 then none
    else some
      { model_type := c.model_id
        mape := round4 (rawMape s)
        wape := round4 (rawWape s)
        rmse := round4 (rawRmse s)
        mae := round4 (rawMae s)
        bias := round4 (rawBias s)
        hit_rate := round4 (rawHitRate s)
        period_count := s.length
        score := round4 (rawMape s + rawWape s * (1/4)) }

/-- Stable insertion of a metric into a score-sorted list. -/
def insertMetric (m : BacktestMetric) :
    List BacktestMetric → List BacktestMetric
  | [] => [m]
  | x :: xs => if m.score ≤ x.score then m :: x :: xs
    else x :: insertMetric m xs

/-- Stable sort ascending by score (Python `sorted(metrics, key=score)`). -/
def sortByScore : List BacktestMetric → List BacktestMetric
  | [] => []
  | m :: ms => insertMetric m (sortByScore ms)

/-- `ForecastService._run_backtests`. -/
def run_backtests (candidates : List BacktestCandidate) (y : List ℝ) :
    List BacktestMetric :=
  sortByScore (candidates.filterMap (backtest_metric y))

/-- The one-step predictor a strategy provides to the backtest engine
(`execute(train, 1)[0]["predicted_qty"]`; `[0]` of a 1-point forecast). -/
def predictOneStep (sid : StrategyId) (o : LibOracle) (train : List ℝ) : ℝ :=
  match strategy_forecast sid o {} ⟨train, 0⟩ 1 with
  | p :: _ => p.predicted_qty
  | [] => 0

/-- The MovingAverage candidate row as the factory registers it. -/
def maCandidate : BacktestCandidate :=
  { model_id := "moving_average"
    min_data_months := 3
    predict := predictOneStep .moving_average {} }

end

/-! ## Spec-side formulations
Independent definitions transcribing the spec's wording of the MovingAverage
numeric contract (spec §4.1), used to state the refinement theorems: the
weighted average and the sample standard deviation are written as indexed
`Finset` sums over the series, to be compared with the embedding's
list-fold formulations. -/

noncomputable section

/-- The k-th value of a series (0 outside range; all uses are in range). -/
def nthY (l : List ℝ) (k : ℕ) : ℝ := l.getD k 0

/-- Spec wording: "weighted average of the last `w` points with linear
weights 1..w" — point `l[len−w+j]` carries weight `j+1`. -/
def specLinWeightedAvg (l : List ℝ) (w : ℕ) : ℝ :=
  (∑ j ∈ Finset.range w, ((j + 1 : ℕ) : ℝ) * nthY l (l.length - w + j)) /
  (∑ j ∈ Finset.range w, ((j + 1 : ℕ) : ℝ))

/-- Spec wording: the arithmetic mean of the series. -/
def specMean (l : List ℝ) : ℝ :=
  (∑ k ∈ Finset.range l.length, nthY l k) / (l.length : ℝ)

/-- Spec wording: the sample standard deviation (ddof = 1). -/
def specSampleStd (l : List ℝ) : ℝ :=
  Real.sqrt ((∑ k ∈ Finset.range l.length, (nthY l k - specMean l) ^ 2) /
    ((l.length : ℝ) - 1))

/-- The per-step MovingAverage forecast point as the spec's numeric contract
reads, with the floors and roundings the source actually applies: the
prediction and lower bound are floored at 0 before rounding to 2 decimals,
the upper bound is rounded but not floored. -/
def specMAPoint (params : StrategyParams) (h : HistorySeries) (i : ℕ) :
    ForecastPoint :=
  let w := min (max 2 (min 12 (params.window.getD 6))).toNat h.y.length
  let tw := max 0 (min 1 (params.trend_weight.getD (1/2)))
  let avg := specLinWeightedAvg h.y w
  let trend := if 2 ≤ h.y.length then (lastVal h.y - prevVal h.y) * (3/10)
    else 0
  let std := if 1 < h.y.length then specSampleStd h.y else avg * (1/10)
  let base := avg + trend * ((i : ℝ) + 1) * tw
  { period := h.last + (i : ℤ) + 1
    predicted_qty := round2 (max 0 base)
    lower_bound := round2 (max 0 (base - (49/25) * std))
    upper_bound := round2 (base + (49/25) * std)
    confidence := 80 }

/-- History [0, 0, 4, 0]: a drop from 4 to 0 gives a strong negative trend
while the sample standard deviation is exactly 2. -/
def c9Hist : HistorySeries := { y := [0, 0, 4, 0], last := 0 }

/-- The backtest history [1, 1, 1, 3] of the score-rounding counterexample:
one walk-forward sample, prediction 1 against actual 3. -/
def c6Hist : List ℝ := [1, 1, 1, 3]

end

/-! ## Concrete fixtures used to instantiate the theorems -/

/-- The create request of the spec §8 consensus example:
baseline 1000, sales +50, marketing +120, finance −40, cap 1080. -/
def c3CreateData : ForecastConsensusCreate :=
  { forecast_run_audit_id := 1
    product_id := 7
    period := 300
    baseline_qty := 1000
    sales_override_qty := 50
    marketing_uplift_qty := 120
    finance_adjustment_qty := -40
    constraint_cap_qty := some 1080 }

/-- A database holding the matching forecast-run audit and no consensus
rows. -/
def c3Db : ConsensusDb :=
  { run_audits := [{ id := 1, product_id := 7 }], consensus_rows := [] }

/-- The consensus row the spec §8 example must produce:
pre 1130, final 1080, draft, version 1. -/
def c3Row : ForecastConsensus :=
  { forecast_run_audit_id := some 1
    product_id := 7
    period := 300
    baseline_qty := 1000
    sales_override_qty := 50
    marketing_uplift_qty := 120
    finance_adjustment_qty := -40
    constraint_cap_qty := some 1080
    pre_consensus_qty := 1130
    final_consensus_qty := 1080
    status := .draft
    notes := none
    approved_by := none
    approved_at := none
    version := 1
    created_by := some 42 }

/-- A draft consensus row (the second spec §8 example: baseline 500,
sales +25, marketing +10, finance −5, no cap, pre = final = 530). -/
def draftRow : ForecastConsensus :=
  { forecast_run_audit_id := some 1
    product_id := 7
    period := 300
    baseline_qty := 500
    sales_override_qty := 25
    marketing_uplift_qty := 10
    finance_adjustment_qty := -5
    constraint_cap_qty := none
    pre_consensus_qty := 530
    final_consensus_qty := 530
    status := .draft
    notes := none
    approved_by := none
    approved_at := none
    version := 1
    created_by := some 42 }

/-- The same row already approved. -/
def approvedRow : ForecastConsensus := { draftRow with status := .approved }

/-- Expected result of approving `draftRow` (approver 9, timestamp 111,
no request note): the note field becomes the empty old-notes string. -/
def c4Result : ForecastConsensus :=
  { draftRow with
    status := .approved
    approved_by := some 9
    approved_at := some 111
    notes := some "" }

/-- Expected demand-plan row created by the write-through for `draftRow`. -/
def c4NewPlan : DemandPlan :=
  { product_id := 7
    period := 300
    region := "Global"
    channel := "All"
    forecast_qty := 500
    consensus_qty := some 530
    status := "draft"
    created_by := some 9
    version := 1 }

/-- A database with no audits at all. -/
def c10DbNoAudit : ConsensusDb := { run_audits := [], consensus_rows := [] }

/-- A database whose only audit is for a different product (8, not 7). -/
def c10DbMismatch : ConsensusDb :=
  { run_audits := [{ id := 1, product_id := 8 }], consensus_rows := [] }

end GenXSOP

namespace GenXSOP

/-! # Theorems -/

/-- `max 0 x` is how the service's `if x < 0: x = 0` floors read. -/
theorem floor0_eq_max (x : ℚ) : (if x < 0 then 0 else x) = max 0 x := by
  rcases le_total x 0 with h | h
  · rcases lt_or_eq_of_le h with h' | h'
    · simp [if_pos h', max_eq_left h]
    · simp [h']
  · simp [not_lt.mpr h, max_eq_right h]

/-- Unfolded form of `compute_final` with a cap. -/
theorem compute_final_some (b s m f cap : ℚ) :
    compute_final b s m f (some cap) =
      (max 0 (b + s + m + f), max 0 (min (max 0 (b + s + m + f)) cap)) := by
  simp only [compute_final, floor0_eq_max]

/-- Unfolded form of `compute_final` without a cap. -/
theorem compute_final_none (b s m f : ℚ) :
    compute_final b s m f none =
      (max 0 (b + s + m + f), max 0 (b + s + m + f)) := by
  simp only [compute_final, floor0_eq_max]
  rw [max_eq_right (le_max_left 0 (b + s + m + f))]

/-- A successful update always bumps the version by exactly one. -/
theorem update_consensus_version (row : ForecastConsensus)
    (data : ForecastConsensusUpdate) (r' : ForecastConsensus)
    (h : update_consensus row data = .ok r') : r'.version = row.version + 1 := by
  unfold update_consensus at h
  split_ifs at h
  cases h
  rfl

/-- C3: consensus derivation — `pre = max(0, baseline + sales + marketing +
finance)`, `final = max(0, min(pre, cap))` with a cap and `final = pre`
without, every successful update increments the version by exactly 1, and the
concrete spec scenario: create(1000, +50, +120, −40, cap 1080) gives
pre = 1130, final = 1080, status draft, version 1, and updating it with an
explicit null cap gives final = 1130, version 2. -/
theorem consensus_compute_and_version :
    (∀ b s m f cap : ℚ,
      compute_final b s m f (some cap) =
        (max 0 (b + s + m + f), max 0 (min (max 0 (b + s + m + f)) cap))) ∧
    (∀ b s m f : ℚ,
      compute_final b s m f none =
        (max 0 (b + s + m + f), max 0 (b + s + m + f))) ∧
    (∀ (row : ForecastConsensus) (data : ForecastConsensusUpdate)
      (r' : ForecastConsensus), update_consensus row data = .ok r' →
        r'.version = row.version + 1) ∧
    create_consensus c3Db c3CreateData 42 =
      .ok (c3Row, { c3Db with consensus_rows := [c3Row] }) ∧
    update_consensus c3Row { constraint_cap_qty := some none } =
      .ok { c3Row with
            constraint_cap_qty := none
            pre_consensus_qty := 1130
            final_consensus_qty := 1130
            version := 2 } := by
  refine ⟨compute_final_some, compute_final_none, update_consensus_version,
    ?_, ?_⟩
  · simp only [create_consensus, c3Db, c3CreateData, c3Row, get_latest,
      compute_final, List.find?, List.filter, List.foldl]
    norm_num
  · simp only [update_consensus, c3Row, decOr0, compute_final]
    norm_num
    decide

/-- Witness for C3 at concrete inputs. -/
theorem consensus_compute_and_version_witness :
    compute_final 1000 50 120 (-40) (some 1080) = (1130, 1080) ∧
    compute_final 1000 50 120 (-40) none = (1130, 1130) ∧
    draftRow.version + 1 = 2 := by
  have h := consensus_compute_and_version
  refine ⟨?_, ?_, ?_⟩
  · rw [h.1 1000 50 120 (-40) 1080]
    norm_num [Prod.ext_iff, max_def, min_def]
  · rw [h.2.1 1000 50 120 (-40)]
    norm_num [Prod.ext_iff, max_def, min_def]
  · have h3 := h.2.2.1 draftRow {} { draftRow with version := 2 }
      (by
        simp only [update_consensus, draftRow, decOr0, compute_final]
        norm_num
        decide)
    exact h3.symm

/-- C5: updating an `approved` or `frozen` consensus record is rejected with
`BusinessRuleViolationException` before any field is touched (the embedding
returns an error carrying no mutated row), and a successful update implies the
record was `draft` or `proposed`. -/
theorem consensus_update_terminal_guard :
    ∀ (row : ForecastConsensus) (data : ForecastConsensusUpdate),
      ((row.status = .approved ∨ row.status = .frozen) →
        update_consensus row data = .error .businessRuleViolation) ∧
      (∀ r', update_consensus row data = .ok r' →
        row.status = .draft ∨ row.status = .proposed) := by
  intro row data
  constructor
  · intro h
    unfold update_consensus
    rw [if_pos h]
  · intro r' h
    unfold update_consensus at h
    split_ifs at h with h1 h2
    cases h
    cases hst : row.status with
    | draft => exact Or.inl rfl
    | proposed => exact Or.inr rfl
    | approved => exact absurd (Or.inl hst) h1
    | frozen => exact absurd (Or.inr hst) h1

/-- Witness for C5: an approved row rejects an empty update, and the guard
direction applied to a draft row. -/
theorem consensus_update_terminal_guard_witness :
    update_consensus approvedRow {} = .error .businessRuleViolation :=
  (consensus_update_terminal_guard approvedRow {}).1 (Or.inl rfl)

/-- `find?` after `updateFirst` with a predicate the patch preserves: the
found row is the patched one. -/
theorem find?_updateFirst (pred : DemandPlan → Bool) (f : DemandPlan → DemandPlan)
    (hf : ∀ p, pred p = true → pred (f p) = true) :
    ∀ l : List DemandPlan,
      (updateFirst pred f l).find? pred = (l.find? pred).map f := by
  intro l
  induction l with
  | nil => rfl
  | cons p ps ih =>
    by_cases hp : pred p
    · simp only [updateFirst, hp, if_true]
      rw [List.find?_cons_of_pos _ (hf p hp), List.find?_cons_of_pos _ hp]
      rfl
    · simp only [updateFirst, hp, if_false, Bool.false_eq_true]
      rw [List.find?_cons_of_neg _ (by simp [hp]),
        List.find?_cons_of_neg _ (by simp [hp])]
      exact ih

/-- C4: approving is rejected on an `approved`/`frozen` record; a successful
approval stamps status/approver/timestamp, appends the supplied approval note,
and writes through to the demand plan: an existing (product, period) row gets
`final_consensus_qty` and a version bump, otherwise a new draft row seeded
with the consensus baseline and final quantities is appended. -/
theorem consensus_approve_write_through :
    ∀ (row : ForecastConsensus) (body : ForecastConsensusApproveRequest)
      (approver now : Nat) (plans : List DemandPlan),
      ((row.status = .approved ∨ row.status = .frozen) →
        approve_consensus row body approver now plans =
          .error .invalidStateTransition) ∧
      (∀ result plans',
        approve_consensus row body approver now plans = .ok (result, plans') →
        result.status = .approved ∧
        result.approved_by = some approver ∧
        result.approved_at = some now ∧
        result.final_consensus_qty = row.final_consensus_qty ∧
        result.baseline_qty = row.baseline_qty ∧
        (∀ nt, body.notes = some nt → nt ≠ "" →
          result.notes =
            some ((row.notes.getD "" ++ "\n[Approved] " ++ nt).trim)) ∧
        (∀ plan,
          demand_get_by_product_and_period plans row.product_id row.period =
            some plan →
          demand_get_by_product_and_period plans' row.product_id row.period =
            some { plan with
                   consensus_qty := some row.final_consensus_qty
                   version := plan.version + 1 }) ∧
        (demand_get_by_product_and_period plans row.product_id row.period =
            none →
          plans' = plans ++ [{ product_id := row.product_id
                               period := row.period
                               region := "Global"
                               channel := "All"
                               forecast_qty := row.baseline_qty
                               consensus_qty := some row.final_consensus_qty
                               status := "draft"
                               created_by := some approver
                               version := 1 }])) := by
  intro row body approver now plans
  constructor
  · intro h
    unfold approve_consensus
    rw [if_pos h]
  · intro result plans' h
    unfold approve_consensus at h
    split_ifs at h with h1
    simp only [demand_get_by_product_and_period]
    rcases hfind : plans.find?
        (fun p => p.product_id == row.product_id && p.period == row.period)
      with _ | plan
    · simp only [hfind] at h
      cases h
      refine ⟨rfl, rfl, rfl, rfl, rfl, ?_, ?_, ?_⟩
      · intro nt hnt hne
        simp only [hnt]
        rw [if_neg hne]
      · intro plan hplan
        rw [hfind] at hplan
        cases hplan
      · intro _
        rfl
    · simp only [hfind] at h
      cases h
      refine ⟨rfl, rfl, rfl, rfl, rfl, ?_, ?_, ?_⟩
      · intro nt hnt hne
        simp only [hnt]
        rw [if_neg hne]
      · intro plan' hplan
        rw [hfind] at hplan
        injection hplan with he
        subst he
        rw [find?_updateFirst
            (fun p => p.product_id == row.product_id && p.period == row.period)
            (fun p => { p with consensus_qty := some row.final_consensus_qty, version := p.version + 1 })
            (fun p hp => hp) plans, hfind]
        rfl
      · intro hnone
        rw [hfind] at hnone
        cases hnone

/-- Witness for C4 at concrete inputs: the approved row rejects, and the
draft row's approval yields the stamped result with the created demand-plan
row. -/
theorem consensus_approve_write_through_witness :
    approve_consensus approvedRow {} 9 111 [] =
      .error .invalidStateTransition ∧
    approve_consensus draftRow {} 9 111 [] = .ok (c4Result, [c4NewPlan]) ∧
    c4Result.status = .approved := by
  have t := consensus_approve_write_through
  have heval : approve_consensus draftRow {} 9 111 [] =
      .ok (c4Result, [c4NewPlan]) := by decide
  exact ⟨(t approvedRow {} 9 111 []).1 (Or.inl rfl), heval,
    ((t draftRow {} 9 111 []).2 c4Result [c4NewPlan] heval).1⟩

/-- C10: creating a consensus requires a matching forecast-run audit —
a missing audit id raises `EntityNotFoundException`, a product mismatch
raises `BusinessRuleViolationException`, and any successful creation implies
a matching audit exists and exactly the one new row was appended. -/
theorem create_requires_matching_audit :
    ∀ (db : ConsensusDb) (data : ForecastConsensusCreate) (user : Nat),
      (db.run_audits.find? (fun a => a.id == data.forecast_run_audit_id) =
          none →
        create_consensus db data user = .error .entityNotFound) ∧
      (∀ audit,
        db.run_audits.find? (fun a => a.id == data.forecast_run_audit_id) =
          some audit →
        audit.product_id ≠ data.product_id →
        create_consensus db data user = .error .businessRuleViolation) ∧
      (∀ row db', create_consensus db data user = .ok (row, db') →
        ∃ audit,
          db.run_audits.find? (fun a => a.id == data.forecast_run_audit_id) =
            some audit ∧
          audit.product_id = data.product_id ∧
          db'.consensus_rows = db.consensus_rows ++ [row]) := by
  intro db data user
  refine ⟨?_, ?_, ?_⟩
  · intro h
    unfold create_consensus
    rw [h]
  · intro audit h hne
    unfold create_consensus
    rw [h]
    exact if_pos hne
  · intro row db' h
    unfold create_consensus at h
    rcases hfind : db.run_audits.find?
        (fun a => a.id == data.forecast_run_audit_id) with _ | audit
    · simp only [hfind] at h
      cases h
    · simp only [hfind] at h
      split_ifs at h with hne
      cases h
      exact ⟨audit, hfind, not_ne_iff.mp hne, rfl⟩

/-- Witness for C10 at concrete inputs: an empty audit table rejects with
not-found, a mismatched product rejects with a business-rule violation. -/
theorem create_requires_matching_audit_witness :
    create_consensus c10DbNoAudit c3CreateData 42 = .error .entityNotFound ∧
    create_consensus c10DbMismatch c3CreateData 42 =
      .error .businessRuleViolation := by
  have t1 := create_requires_matching_audit c10DbNoAudit c3CreateData 42
  have t2 := create_requires_matching_audit c10DbMismatch c3CreateData 42
  exact ⟨t1.1 rfl, t2.2.1 { id := 1, product_id := 8 } (by decide) (by decide)⟩

/-- C1 counterexample: an arbitrary `requestedModel` string is returned
verbatim by the advisor, so the returned model id escapes the supported
strategy set — the claimed invariant fails on the pass-through rule. -/
theorem advisor_requested_model_escapes_supported_set :
    (recommend_model false (.error "") (some "totally_custom_model")
      "moving_average").recommended_model ∉ supported_models := by
  decide

/-- C1 amended: a non-empty `requestedModel` is returned verbatim with
confidence 1.0 and `fallback_used = false` even when it lies outside the
supported set; when no `requestedModel` is given and the deterministic
`defaultModel` is itself a supported id, the advisor's output id is in the
supported set for every behaviour of the external recommender (unsupported
recommender ids are substituted by `defaultModel`). -/
theorem advisor_output_supported_when_not_requested :
    ∀ (enabled : Bool) (llm : Except String GenxaiPayload)
      (requested : Option String) (default_model : String),
      (requested.getD "" ≠ "" →
        (recommend_model enabled llm requested default_model).recommended_model
            = requested.getD "" ∧
        (recommend_model enabled llm requested default_model).fallback_used
            = false ∧
        (recommend_model enabled llm requested default_model).confidence
            = 1) ∧
      (requested.getD "" = "" → default_model ∈ supported_models →
        (recommend_model enabled llm requested default_model).recommended_model
          ∈ supported_models) := by
  intro enabled llm requested default_model
  constructor
  · intro h
    unfold recommend_model
    rw [if_pos h]
    exact ⟨rfl, rfl, rfl⟩
  · intro h hdef
    unfold recommend_model
    rw [if_neg (fun hn => hn h)]
    cases enabled with
    | false => rw [if_pos rfl]; exact hdef
    | true =>
      rw [if_neg (by simp)]
      cases llm with
      | error e => exact hdef
      | ok payload =>
        simp only [recommend_with_genxai]
        split_ifs with hm
        · exact hm
        · exact hdef

/-- Witness for C1 amended at concrete inputs (the spec §8 advisor example:
requested "prophet" is passed through; absent request keeps the supported
default). -/
theorem advisor_output_supported_witness :
    (recommend_model false (.error "") (some "prophet")
      "moving_average").recommended_model = "prophet" ∧
    (recommend_model false (.error "") none
      "moving_average").recommended_model ∈ supported_models := by
  have t1 := advisor_output_supported_when_not_requested false (.error "")
    (some "prophet") "moving_average"
  have t2 := advisor_output_supported_when_not_requested false (.error "")
    none "moving_average"
  exact ⟨(t1.1 (by decide)).1, t2.2 rfl (by decide)⟩

/-- C2 counterexample: a job cancelled after worker pickup but before the
write-back is overwritten — the write-back stores the result payload and sets
`completed`, so the cancelled job does transition to `completed` and its
result is not discarded. -/
theorem cancelled_running_job_overwritten_to_completed :
    (jobRun [.pickup 1, .cancel 2] enqueuedJob).job.status = .cancelled ∧
    (jobRun [.pickup 1, .cancel 2, .finish 3 "payload"] enqueuedJob).job.status
      = .completed ∧
    (jobRun [.pickup 1, .cancel 2, .finish 3 "payload"]
      enqueuedJob).job.result_json = some "payload" := by
  decide

/-- C2 amended: `cancel_job` succeeds exactly from `queued`/`running` and
records the cancellation reason; a job already cancelled before pickup is
never executed and stays cancelled under any further schedule; but the
worker's success write-back unconditionally stores the result payload and
sets `completed` without re-checking cancellation, so a job cancelled while
running is overwritten on completion. -/
theorem job_cancellation_semantics :
    (∀ (now : Nat) (job : JobRow),
      ((job.status = .queued ∨ job.status = .running) →
        cancel_job now job = { job with status := .cancelled, completed_at := some now, error := some "Cancelled by user" }) ∧
      (job.status ≠ .queued ∧ job.status ≠ .running →
        cancel_job now job = job)) ∧
    (∀ (events : List JobEvent) (s : JobSystem),
      s.job.status = .cancelled → s.phase ≠ .executing →
      s.work_executed = false →
      (jobRun events s).job.status = .cancelled ∧
      (jobRun events s).work_executed = false) ∧
    (∀ (s : JobSystem) (now : Nat) (payload : String),
      s.phase = .executing →
      (jobStep (.finish now payload) s).job.status = .completed ∧
      (jobStep (.finish now payload) s).job.result_json = some payload) := by
  refine ⟨?_, ?_, ?_⟩
  · intro now job
    constructor
    · intro h
      unfold cancel_job
      rw [if_pos h]
    · intro hqr
      unfold cancel_job
      rw [if_neg (fun hc => hc.elim hqr.1 hqr.2)]
  · intro events
    induction events with
    | nil =>
      intro s h1 h2 h3
      exact ⟨h1, h3⟩
    | cons e es ih =>
      intro s h1 h2 h3
      have hstep : (jobStep e s).job.status = .cancelled ∧
          (jobStep e s).phase ≠ .executing ∧
          (jobStep e s).work_executed = false := by
        cases e with
        | cancel now =>
          have hcj : cancel_job now s.job = s.job := by
            unfold cancel_job
            rw [if_neg (by rw [h1]; rintro (hc | hc) <;> cases hc)]
          simp only [jobStep, hcj]
          exact ⟨h1, h2, h3⟩
        | pickup now =>
          simp only [jobStep]
          by_cases hp : s.phase = .idle
          · rw [if_pos hp, if_pos h1]
            exact ⟨h1, by simp, h3⟩
          · rw [if_neg hp]
            exact ⟨h1, h2, h3⟩
        | finish now payload =>
          simp only [jobStep]
          rw [if_neg h2]
          exact ⟨h1, h2, h3⟩
      exact ih (jobStep e s) hstep.1 hstep.2.1 hstep.2.2
  · intro s now payload h
    refine ⟨?_, ?_⟩ <;> simp only [jobStep, if_pos h]

/-- Witness for C2 amended at concrete inputs. -/
theorem job_cancellation_semantics_witness :
    cancel_job 5 { status := .queued } = { status := JobStatus.cancelled, error := some "Cancelled by user", result_json := none, started_at := none, completed_at := some 5 } ∧
    (jobRun [.pickup 1] { job := { status := .cancelled }, phase := .idle }).job.status = .cancelled ∧
    (jobStep (.finish 3 "r") { job := { status := .cancelled }, phase := .executing }).job.status = .completed := by
  have t := job_cancellation_semantics
  refine ⟨?_, ?_, ?_⟩
  · exact (t.1 5 { status := .queued }).1 (Or.inl rfl)
  · exact ((t.2.1 [.pickup 1]
      { job := { status := .cancelled }, phase := .idle }) rfl
        (by decide) rfl).1
  · exact (t.2.2 { job := { status := .cancelled }, phase := .executing }
      3 "r" rfl).1

/-! ## Rounding and shape helper lemmas -/

/-- `round x = n` whenever `x + 1/2` lies in `[n, n+1)`. -/
theorem round_eval (x : ℝ) (n : ℤ) (h1 : (n : ℝ) ≤ x + 1/2)
    (h2 : x + 1/2 < n + 1) : round x = n := by
  rw [round_eq]
  exact Int.floor_eq_iff.mpr ⟨h1, h2⟩

/-- Evaluate `round2` on a value whose scaled form rounds to `n`. -/
theorem round2_eval (x : ℝ) (n : ℤ) (h1 : (n : ℝ) ≤ x * 100 + 1/2)
    (h2 : x * 100 + 1/2 < n + 1) : round2 x = n / 100 := by
  unfold round2
  rw [round_eval (x * 100) n h1 h2]

/-- Evaluate `round4` on a value whose scaled form rounds to `n`. -/
theorem round4_eval (x : ℝ) (n : ℤ) (h1 : (n : ℝ) ≤ x * 10000 + 1/2)
    (h2 : x * 10000 + 1/2 < n + 1) : round4 x = n / 10000 := by
  unfold round4
  rw [round_eval (x * 10000) n h1 h2]

/-- Rounding to two decimals preserves non-negativity. -/
theorem round2_nonneg (x : ℝ) (hx : 0 ≤ x) : 0 ≤ round2 x := by
  unfold round2
  have h0 : (0 : ℤ) ≤ round (x * 100) := by
    rw [round_eq]
    refine Int.floor_nonneg.mpr ?_
    nlinarith
  have h0' : (0 : ℝ) ≤ (round (x * 100) : ℤ) := by exact_mod_cast h0
  linarith

/-- The shape contract for a forecast built by mapping over
`List.range horizon`. -/
theorem pointsOk_map_range (h : HistorySeries) (horizon : ℕ)
    (f : ℕ → ForecastPoint)
    (hp : ∀ i, (f i).period = h.last + (i : ℤ) + 1)
    (hq : ∀ i, 0 ≤ (f i).predicted_qty) :
    pointsOk h horizon ((List.range horizon).map f) := by
  refine ⟨by simp, ?_⟩
  intro i hi
  have hi' : i < horizon := by simpa using hi
  have hget : ((List.range horizon).map f).get ⟨i, hi⟩ = f i := by
    simp [List.get_eq_getElem, List.getElem_map, List.getElem_range]
  rw [hget]
  exact ⟨hp i, hq i⟩

/-- The shape contract for a forecast built by zipping the future periods
with a well-sized list of fitted values. -/
theorem pointsOk_zip_map {α : Type} (h : HistorySeries) (horizon : ℕ)
    (vals : List α) (hlen : vals.length = horizon)
    (g : ℤ × α → ForecastPoint)
    (hp : ∀ p v, (g (p, v)).period = p)
    (hq : ∀ p v, v ∈ vals → 0 ≤ (g (p, v)).predicted_qty) :
    pointsOk h horizon
      (((build_future_periods h.last horizon).zip vals).map g) := by
  have hplen : (build_future_periods h.last horizon).length = horizon := by
    unfold build_future_periods
    rw [List.length_map, List.length_range]
  have hzlen : ((build_future_periods h.last horizon).zip vals).length
      = horizon := by
    rw [List.length_zip, hplen, hlen, min_self]
  refine ⟨by rw [List.length_map, hzlen], ?_⟩
  intro i hi
  have hi' : i < horizon := by
    rw [List.length_map, hzlen] at hi
    exact hi
  have hiv : i < vals.length := by omega
  have hip : i < (build_future_periods h.last horizon).length := by omega
  have hiz : i < ((build_future_periods h.last horizon).zip vals).length := by
    omega
  have hget : (((build_future_periods h.last horizon).zip vals).map g).get
      ⟨i, hi⟩ = g ((build_future_periods h.last horizon)[i], vals[i]) := by
    simp only [List.get_eq_getElem, List.getElem_map, List.getElem_zip]
  have hper : (build_future_periods h.last horizon)[i] =
      h.last + (i : ℤ) + 1 := by
    unfold build_future_periods
    rw [List.getElem_map, List.getElem_range]
  rw [hget, hper]
  exact ⟨hp _ _, hq _ _ (List.getElem_mem hiv)⟩

/-- MovingAverage satisfies the shape contract for every history and
horizon. -/
theorem ma_pointsOk (params : StrategyParams) (h : HistorySeries)
    (horizon : ℕ) :
    pointsOk h horizon (moving_average_forecast params h horizon) := by
  apply pointsOk_map_range
  · intro i; rfl
  · intro i
    exact round2_nonneg _ (le_max_left 0 _)

/-- EWMA satisfies the shape contract for every history and horizon. -/
theorem ewma_pointsOk (params : StrategyParams) (h : HistorySeries)
    (horizon : ℕ) :
    pointsOk h horizon (ewma_forecast params h horizon) := by
  apply pointsOk_map_range
  · intro i; rfl
  · intro i
    exact round2_nonneg _ (le_max_left 0 _)

/-- SeasonalNaive satisfies the shape contract (directly, or through its
EWMA degrade). -/
theorem sn_pointsOk (params : StrategyParams) (h : HistorySeries)
    (horizon : ℕ) :
    pointsOk h horizon (seasonal_naive_forecast params h horizon) := by
  unfold seasonal_naive_forecast
  split_ifs with hlen
  · exact ewma_pointsOk params h horizon
  · apply pointsOk_map_range
    · intro i; rfl
    · intro i
      exact round2_nonneg _ (le_max_left 0 _)

/-- ExponentialSmoothing satisfies the shape contract for every library
behaviour whose successful fit returns `horizon` values. -/
theorem holt_pointsOk (o : LibOracle) (params : StrategyParams)
    (h : HistorySeries) (horizon : ℕ) (hwf : o.wf horizon) :
    pointsOk h horizon (exp_smoothing_forecast o params h horizon) := by
  unfold exp_smoothing_forecast
  split_ifs with hlen
  · exact ma_pointsOk params h horizon
  · rcases ho : o.holt with _ | ⟨vals, resid_std⟩
    · exact ma_pointsOk params h horizon
    · apply pointsOk_zip_map
      · exact hwf.1 vals resid_std ho
      · intro p v; rfl
      · intro p v _
        exact round2_nonneg _ (le_max_left 0 _)

/-- ARIMA satisfies the shape contract for every library behaviour whose
successful fit returns `horizon` rows. -/
theorem arima_pointsOk (o : LibOracle) (params : StrategyParams)
    (h : HistorySeries) (horizon : ℕ) (hwf : o.wf horizon) :
    pointsOk h horizon (arima_forecast o params h horizon) := by
  unfold arima_forecast
  split_ifs with hlen
  · exact holt_pointsOk o params h horizon hwf
  · rcases ho : o.arima with _ | rows
    · exact holt_pointsOk o params h horizon hwf
    · dsimp only
      split_ifs with hrows
      · exact holt_pointsOk o params h horizon hwf
      · apply pointsOk_zip_map
        · exact hwf.2.1 rows ho
        · intro p v; rfl
        · intro p v _
          exact round2_nonneg _ (le_max_left 0 _)

/-- Prophet satisfies the shape contract for every library behaviour whose
successful fit returns `horizon` rows. -/
theorem prophet_pointsOk (o : LibOracle) (params : StrategyParams)
    (h : HistorySeries) (horizon : ℕ) (hwf : o.wf horizon) :
    pointsOk h horizon (prophet_forecast o params h horizon) := by
  unfold prophet_forecast
  split_ifs with hlen
  · exact holt_pointsOk o params h horizon hwf
  · rcases ho : o.prophet with _ | rows
    · exact holt_pointsOk o params h horizon hwf
    · dsimp only
      split_ifs with hrows
      · exact holt_pointsOk o params h horizon hwf
      · apply pointsOk_zip_map
        · exact hwf.2.2.1 rows ho
        · intro p v; rfl
        · intro p v _
          exact round2_nonneg _ (le_max_left 0 _)

/-- LSTM satisfies the shape contract: the applied predictions are clamped at
0 before rounding. -/
theorem lstm_pointsOk (o : LibOracle) (params : StrategyParams)
    (h : HistorySeries) (horizon : ℕ) (hwf : o.wf horizon) :
    pointsOk h horizon (lstm_forecast o params h horizon) := by
  unfold lstm_forecast
  dsimp only
  by_cases hlen : (h.y.length : ℤ) <
      max 8 (max 3 (min 24 (params.lookback_window.getD 12)) + 1)
  · rw [if_pos hlen]
    exact holt_pointsOk o params h horizon hwf
  · rw [if_neg hlen]
    rcases ho : o.lstm with _ | ⟨preds_norm, resid0⟩
    · exact holt_pointsOk o params h horizon hwf
    · dsimp only
      apply pointsOk_zip_map
      · rw [List.length_map]
        exact hwf.2.2.2 preds_norm resid0 ho
      · intro p v; rfl
      · intro p v hv
        rcases List.mem_map.mp hv with ⟨q, _, rfl⟩
        exact round2_nonneg _ (le_max_left 0 _)

/-- A forecast satisfying the shape contract has only non-negative
predictions among its members. -/
theorem pointsOk_mem_nonneg {h : HistorySeries} {n : ℕ}
    {out : List ForecastPoint} (hok : pointsOk h n out) :
    ∀ pt ∈ out, 0 ≤ pt.predicted_qty := by
  intro pt hpt
  obtain ⟨⟨i, hi⟩, rfl⟩ := List.mem_iff_get.mp hpt
  exact (hok.2 i hi).2

/-- The default oracle (every library call failing) is well-formed for every
horizon. -/
theorem libOracle_default_wf (n : ℕ) : LibOracle.wf {} n :=
  ⟨(fun _ _ h => nomatch h), (fun _ h => nomatch h), (fun _ h => nomatch h),
    (fun _ _ h => nomatch h)⟩

/-- C7: for every strategy, oracle behaviour respecting the library output
contract, parameters, history of at least the strategy's `min_data_months`,
and horizon ≥ 1, the forecast has exactly `horizon` points, the `i`-th period
is the (i+1)-st month after the history's last period (hence strictly
increasing at a monthly step starting the month after the last history
point), and every prediction is non-negative. -/
theorem strategy_forecast_shape :
    ∀ (sid : StrategyId) (o : LibOracle) (params : StrategyParams)
      (h : HistorySeries) (horizon : ℕ),
      1 ≤ horizon → min_data_months sid ≤ h.y.length → o.wf horizon →
      pointsOk h horizon (strategy_forecast sid o params h horizon) := by
  intro sid o params h horizon _ _ hwf
  cases sid with
  | moving_average => exact ma_pointsOk params h horizon
  | ewma => exact ewma_pointsOk params h horizon
  | exp_smoothing => exact holt_pointsOk o params h horizon hwf
  | seasonal_naive => exact sn_pointsOk params h horizon
  | arima => exact arima_pointsOk o params h horizon hwf
  | prophet => exact prophet_pointsOk o params h horizon hwf
  | lstm => exact lstm_pointsOk o params h horizon hwf

/-- Witness for C7: MovingAverage on a 3-month history with horizon 2. -/
theorem strategy_forecast_shape_witness :
    pointsOk { y := [1, 2, 3], last := 0 } 2
      (strategy_forecast .moving_average {} {} { y := [1, 2, 3], last := 0 }
        2) :=
  strategy_forecast_shape .moving_average {} {} { y := [1, 2, 3], last := 0 }
    2 (by decide) (by decide) (libOracle_default_wf 2)

/-- C8: for every history with at least one point, every horizon, and every
oracle behaviour respecting the library output contract (including total
failure of every library), every strategy's forecast is defined — it returns
exactly `horizon` non-negative points and no error escapes to the caller —
and the degrade chain is exactly: ExponentialSmoothing falls back to
MovingAverage below 4 points or on library failure; SeasonalNaive falls back
to EWMA below 12 months; ARIMA and Prophet fall back to ExponentialSmoothing
below 12 points or on library failure; LSTM falls back to
ExponentialSmoothing below `max 8 (lookback + 1)` points or on library
failure.  EWMA and MovingAverage never delegate (their definitions reference
no other strategy) and succeed for any history length ≥ 1. -/
theorem strategy_degrade_chain :
    (∀ (sid : StrategyId) (o : LibOracle) (params : StrategyParams)
      (h : HistorySeries) (horizon : ℕ),
      1 ≤ h.y.length → o.wf horizon →
      (strategy_forecast sid o params h horizon).length = horizon ∧
      ∀ pt ∈ strategy_forecast sid o params h horizon,
        0 ≤ pt.predicted_qty) ∧
    (∀ (o : LibOracle) (params : StrategyParams) (h : HistorySeries)
      (horizon : ℕ), h.y.length < 4 →
      exp_smoothing_forecast o params h horizon =
        moving_average_forecast params h horizon) ∧
    (∀ (o : LibOracle) (params : StrategyParams) (h : HistorySeries)
      (horizon : ℕ), o.holt = none →
      exp_smoothing_forecast o params h horizon =
        moving_average_forecast params h horizon) ∧
    (∀ (params : StrategyParams) (h : HistorySeries) (horizon : ℕ),
      h.y.length < 12 →
      seasonal_naive_forecast params h horizon =
        ewma_forecast params h horizon) ∧
    (∀ (o : LibOracle) (params : StrategyParams) (h : HistorySeries)
      (horizon : ℕ), h.y.length < 12 ∨ o.arima = none →
      arima_forecast o params h horizon =
        exp_smoothing_forecast o params h horizon) ∧
    (∀ (o : LibOracle) (params : StrategyParams) (h : HistorySeries)
      (horizon : ℕ), h.y.length < 12 ∨ o.prophet = none →
      prophet_forecast o params h horizon =
        exp_smoothing_forecast o params h horizon) ∧
    (∀ (o : LibOracle) (params : StrategyParams) (h : HistorySeries)
      (horizon : ℕ), o.lstm = none →
      lstm_forecast o params h horizon =
        exp_smoothing_forecast o params h horizon) := by
  refine ⟨?_, ?_, ?_, ?_, ?_, ?_, ?_⟩
  · intro sid o params h horizon _ hwf
    have hok : pointsOk h horizon (strategy_forecast sid o params h horizon) := by
      cases sid with
      | moving_average => exact ma_pointsOk params h horizon
      | ewma => exact ewma_pointsOk params h horizon
      | exp_smoothing => exact holt_pointsOk o params h horizon hwf
      | seasonal_naive => exact sn_pointsOk params h horizon
      | arima => exact arima_pointsOk o params h horizon hwf
      | prophet => exact prophet_pointsOk o params h horizon hwf
      | lstm => exact lstm_pointsOk o params h horizon hwf
    exact ⟨hok.1, pointsOk_mem_nonneg hok⟩
  · intro o params h horizon hlen
    unfold exp_smoothing_forecast
    rw [if_pos hlen]
  · intro o params h horizon hnone
    unfold exp_smoothing_forecast
    split_ifs with hlen
    · rfl
    · rw [hnone]
  · intro params h horizon hlen
    unfold seasonal_naive_forecast
    rw [if_pos hlen]
  · intro o params h horizon hcase
    unfold arima_forecast
    rcases hcase with hlen | hnone
    · rw [if_pos hlen]
    · split_ifs with hlen
      · rfl
      · rw [hnone]
  · intro o params h horizon hcase
    unfold prophet_forecast
    rcases hcase with hlen | hnone
    · rw [if_pos hlen]
    · split_ifs with hlen
      · rfl
      · rw [hnone]
  · intro o params h horizon hnone
    unfold lstm_forecast
    dsimp only
    by_cases hlen : (h.y.length : ℤ) <
        max 8 (max 3 (min 24 (params.lookback_window.getD 12)) + 1)
    · rw [if_pos hlen]
    · rw [if_neg hlen, hnone]

/-- Witness for C8: with every library failing, prophet on a single-point
history degrades down to MovingAverage yet returns a 2-point non-negative
forecast. -/
theorem strategy_degrade_chain_witness :
    (strategy_forecast .prophet {} {} { y := [5], last := 0 } 2).length = 2 ∧
    prophet_forecast {} {} { y := [5], last := 0 } 2 =
      exp_smoothing_forecast {} {} { y := [5], last := 0 } 2 ∧
    exp_smoothing_forecast {} {} { y := [5], last := 0 } 2 =
      moving_average_forecast {} { y := [5], last := 0 } 2 := by
  have t := strategy_degrade_chain
  refine ⟨?_, ?_, ?_⟩
  · exact (t.1 .prophet {} {} { y := [5], last := 0 } 2 (by decide)
      (libOracle_default_wf 2)).1
  · exact t.2.2.2.2.2.1 {} {} { y := [5], last := 0 } 2 (Or.inl (by decide))
  · exact t.2.1 {} {} { y := [5], last := 0 } 2 (by decide)

/-! ## Bridging the embedding's list folds to the spec-side indexed sums -/

/-- A list sum as an indexed sum over its positions. -/
theorem sum_eq_range_sum (l : List ℝ) :
    l.sum = ∑ k ∈ Finset.range l.length, nthY l k := by
  induction l with
  | nil => simp
  | cons x xs ih =>
    rw [List.sum_cons, ih, List.length_cons, Finset.sum_range_succ']
    simp only [nthY, List.getD_cons_succ, List.getD_cons_zero]
    ring

/-- A mapped list sum as an indexed sum over its positions. -/
theorem map_sum_eq_range_sum (f : ℝ → ℝ) (l : List ℝ) :
    (l.map f).sum = ∑ k ∈ Finset.range l.length, f (nthY l k) := by
  induction l with
  | nil => simp
  | cons x xs ih =>
    rw [List.map_cons, List.sum_cons, ih, List.length_cons,
      Finset.sum_range_succ']
    simp only [nthY, List.getD_cons_succ, List.getD_cons_zero]
    ring

/-- A position-weighted zip sum as an indexed sum. -/
theorem zipWith_range_sum : ∀ (l : List ℝ) (g : ℕ → ℝ → ℝ),
    (List.zipWith g (List.range l.length) l).sum =
      ∑ k ∈ Finset.range l.length, g k (nthY l k) := by
  intro l
  induction l with
  | nil => intro g; simp
  | cons x xs ih =>
    intro g
    rw [List.length_cons, List.range_succ_eq_map, List.zipWith_cons_cons,
      List.zipWith_map_left, List.sum_cons, ih fun a b => g a.succ b,
      Finset.sum_range_succ']
    simp only [nthY, List.getD_cons_succ, List.getD_cons_zero,
      Nat.succ_eq_add_one]
    ring

/-- A mapped range sum as an indexed sum. -/
theorem range_map_sum (f : ℕ → ℝ) (n : ℕ) :
    ((List.range n).map f).sum = ∑ k ∈ Finset.range n, f k := by
  induction n with
  | zero => simp
  | succ m ih =>
    rw [List.range_succ, List.map_append, List.sum_append, ih,
      Finset.sum_range_succ]
    simp

/-- Indexing into a dropped list. -/
theorem nthY_drop (l : List ℝ) (d j : ℕ) :
    nthY (l.drop d) j = nthY l (d + j) := by
  unfold nthY
  rw [List.getD_eq_getD_get?, List.getD_eq_getD_get?, List.get?_drop]

/-- The embedding's `np.average` over the kept tail is the spec's linearly
weighted average of the last `w` points. -/
theorem weightedAverage_drop (l : List ℝ) (w : ℕ) (hw : w ≤ l.length) :
    weightedAverage (l.drop (l.length - w)) = specLinWeightedAvg l w := by
  unfold weightedAverage specLinWeightedAvg
  have hlen : (l.drop (l.length - w)).length = w := by
    rw [List.length_drop]
    omega
  rw [zipWith_range_sum, range_map_sum, hlen]
  congr 1
  apply Finset.sum_congr rfl
  intro j _
  rw [nthY_drop]

/-- The embedding's mean is the spec's mean. -/
theorem listMean_eq_spec (l : List ℝ) : listMean l = specMean l := by
  unfold listMean specMean
  rw [sum_eq_range_sum]

/-- The embedding's pandas sample std is the spec's sample std. -/
theorem sampleStd_eq_spec (l : List ℝ) : sampleStd l = specSampleStd l := by
  unfold sampleStd specSampleStd
  rw [map_sum_eq_range_sum, listMean_eq_spec]

/-- `round2` of zero. -/
theorem round2_zero : round2 0 = 0 := by
  unfold round2
  rw [zero_mul, round_zero]
  norm_num

/-- The per-index closed form of the MovingAverage forecast: point `i` is the
spec-side numeric contract point. -/
theorem moving_average_forecast_get? (params : StrategyParams)
    (h : HistorySeries) (horizon i : ℕ) (hi : i < horizon) :
    (moving_average_forecast params h horizon).get? i =
      some (specMAPoint params h i) := by
  unfold moving_average_forecast
  rw [List.get?_map, List.get?_range hi, Option.map_some']
  refine congrArg some ?_
  unfold specMAPoint
  dsimp only
  rw [weightedAverage_drop h.y _ (min_le_right _ _), sampleStd_eq_spec]

/-- C9 amended: for every history of length ≥ 1 and 0-indexed step `i` below
the horizon, the MovingAverage output point equals the spec-side contract
point: the linearly weighted average of the last `min(window, len)` points,
trend `0.3·(last − prev)` when ≥ 2 points else 0, per-step prediction
`max(0, avg + trend·(i+1)·trend_weight)` rounded to 2 decimals, lower bound
floored at 0 and rounded, upper bound rounded but NOT floored at 0 (bounds
are offset from the pre-floor prediction value), std the sample std (or 10%
of the average when < 2 points), confidence fixed at 80. -/
theorem moving_average_numeric_contract :
    ∀ (params : StrategyParams) (h : HistorySeries) (horizon i : ℕ),
      i < horizon → 1 ≤ h.y.length →
      (moving_average_forecast params h horizon).get? i =
        some (specMAPoint params h i) := by
  intro params h horizon i hi _
  exact moving_average_forecast_get? params h horizon i hi

/-- Witness for C9 amended at a concrete input. -/
theorem moving_average_numeric_contract_witness :
    (moving_average_forecast {} { y := [1, 2, 3], last := 0 } 2).get? 0 =
      some (specMAPoint {} { y := [1, 2, 3], last := 0 } 0) :=
  moving_average_numeric_contract {} { y := [1, 2, 3], last := 0 } 2 0
    (by decide) (by decide)

/-- The weighted average of the counterexample history. -/
theorem c9_avg : specLinWeightedAvg [(0 : ℝ), 0, 4, 0] 4 = 6/5 := by
  unfold specLinWeightedAvg
  rw [show ([(0 : ℝ), 0, 4, 0]).length = 4 from rfl]
  rw [Finset.sum_range_succ, Finset.sum_range_succ, Finset.sum_range_succ,
    Finset.sum_range_succ, Finset.sum_range_zero,
    Finset.sum_range_succ, Finset.sum_range_succ, Finset.sum_range_succ,
    Finset.sum_range_succ, Finset.sum_range_zero]
  norm_num [show nthY [(0 : ℝ), 0, 4, 0] 0 = 0 from rfl,
    show nthY [(0 : ℝ), 0, 4, 0] 1 = 0 from rfl,
    show nthY [(0 : ℝ), 0, 4, 0] 2 = 4 from rfl,
    show nthY [(0 : ℝ), 0, 4, 0] 3 = 0 from rfl]

/-- The mean of the counterexample history. -/
theorem c9_mean : specMean [(0 : ℝ), 0, 4, 0] = 1 := by
  unfold specMean
  rw [show ([(0 : ℝ), 0, 4, 0]).length = 4 from rfl]
  rw [Finset.sum_range_succ, Finset.sum_range_succ, Finset.sum_range_succ,
    Finset.sum_range_succ, Finset.sum_range_zero]
  norm_num [show nthY [(0 : ℝ), 0, 4, 0] 0 = 0 from rfl,
    show nthY [(0 : ℝ), 0, 4, 0] 1 = 0 from rfl,
    show nthY [(0 : ℝ), 0, 4, 0] 2 = 4 from rfl,
    show nthY [(0 : ℝ), 0, 4, 0] 3 = 0 from rfl]

/-- The sample standard deviation of the counterexample history is exactly
2. -/
theorem c9_std : specSampleStd [(0 : ℝ), 0, 4, 0] = 2 := by
  unfold specSampleStd
  rw [show ([(0 : ℝ), 0, 4, 0]).length = 4 from rfl]
  rw [Finset.sum_range_succ, Finset.sum_range_succ, Finset.sum_range_succ,
    Finset.sum_range_succ, Finset.sum_range_zero, c9_mean]
  rw [show nthY [(0 : ℝ), 0, 4, 0] 0 = 0 from rfl,
    show nthY [(0 : ℝ), 0, 4, 0] 1 = 0 from rfl,
    show nthY [(0 : ℝ), 0, 4, 0] 2 = 4 from rfl,
    show nthY [(0 : ℝ), 0, 4, 0] 3 = 0 from rfl]
  rw [show (((4 : ℕ) : ℝ)) = 4 by norm_num]
  rw [show (0 + ((0 : ℝ) - 1) ^ 2 + ((0 : ℝ) - 1) ^ 2 + ((4 : ℝ) - 1) ^ 2 +
    ((0 : ℝ) - 1) ^ 2) / ((4 : ℝ) - 1) = 2 ^ 2 by norm_num]
  exact Real.sqrt_sq (by norm_num)

/-- C9 counterexample: on history [0, 0, 4, 0] with default parameters and
horizon 9, the 9th point's upper bound is −0.28 < 0 — the upper bound is
computed from the pre-floor prediction value and is not floored at 0, so the
claimed "bounds = prediction ∓/± 1.96·std, both floored at 0" fails. -/
theorem moving_average_upper_bound_negative :
    (moving_average_forecast {} c9Hist 9).get? 8 = some
      { period := 9, predicted_qty := 0, lower_bound := 0,
        upper_bound := -(7/25), confidence := 80 } ∧
    ¬ (0 : ℝ) ≤ -(7/25) := by
  refine ⟨?_, by norm_num⟩
  rw [moving_average_forecast_get? {} c9Hist 9 8 (by norm_num)]
  refine congrArg some ?_
  unfold specMAPoint c9Hist
  dsimp only
  rw [show min (max 2 (min 12 ((({} : StrategyParams)).window.getD 6))).toNat
      ([(0 : ℝ), 0, 4, 0]).length = 4 from rfl]
  rw [c9_avg, c9_std]
  rw [show lastVal [(0 : ℝ), 0, 4, 0] = 0 from rfl,
    show prevVal [(0 : ℝ), 0, 4, 0] = 4 from rfl]
  rw [if_pos (by norm_num : 2 ≤ ([(0 : ℝ), 0, 4, 0]).length),
    if_pos (by norm_num : 1 < ([(0 : ℝ), 0, 4, 0]).length)]
  have hbase : (6/5 : ℝ) + ((0 : ℝ) - 4) * (3/10) * (((8 : ℕ) : ℝ) + 1) *
      (max 0 (min 1 ((({} : StrategyParams)).trend_weight.getD (1/2)))) =
      -(21/5) := by
    norm_num
  rw [hbase]
  have hpred : round2 (max 0 (-(21/5) : ℝ)) = 0 := by
    rw [max_eq_left (by norm_num : (-(21/5) : ℝ) ≤ 0), round2_zero]
  have hlow : round2 (max 0 ((-(21/5) : ℝ) - (49/25) * 2)) = 0 := by
    rw [max_eq_left (by norm_num : ((-(21/5) : ℝ) - (49/25) * 2) ≤ 0),
      round2_zero]
  have hup : round2 ((-(21/5) : ℝ) + (49/25) * 2) = -(7/25) := by
    have := round2_eval ((-(21/5) : ℝ) + (49/25) * 2) (-28)
      (by norm_num) (by norm_num)
    rw [this]
    norm_num
  rw [hpred, hlow, hup]
  norm_num

/-! ## Backtest ranking lemmas -/

/-- Inserting a metric is a permutation of consing it. -/
theorem insertMetric_perm (m : BacktestMetric) (l : List BacktestMetric) :
    List.Perm (insertMetric m l) (m :: l) := by
  induction l with
  | nil => exact List.Perm.refl _
  | cons x xs ih =>
    unfold insertMetric
    split_ifs with hle
    · exact List.Perm.refl _
    · exact (List.Perm.cons x ih).trans (List.Perm.swap m x xs)

/-- The stable score sort is a permutation of its input. -/
theorem sortByScore_perm (l : List BacktestMetric) :
    List.Perm (sortByScore l) l := by
  induction l with
  | nil => exact List.Perm.refl _
  | cons m ms ih =>
    unfold sortByScore
    exact (insertMetric_perm m (sortByScore ms)).trans (List.Perm.cons m ih)

/-- Inserting into a score-sorted list keeps it sorted. -/
theorem insertMetric_sorted (m : BacktestMetric) (l : List BacktestMetric)
    (h : List.Pairwise (fun a b => a.score ≤ b.score) l) :
    List.Pairwise (fun a b => a.score ≤ b.score) (insertMetric m l) := by
  induction l with
  | nil => simp [insertMetric]
  | cons x xs ih =>
    rcases List.pairwise_cons.mp h with ⟨hx, hxs⟩
    unfold insertMetric
    split_ifs with hle
    · refine List.pairwise_cons.mpr ⟨?_, h⟩
      intro z hz
      rcases List.mem_cons.mp hz with rfl | hz'
      · exact hle
      · exact le_trans hle (hx z hz')
    · refine List.pairwise_cons.mpr ⟨?_, ih hxs⟩
      intro z hz
      rcases List.mem_cons.mp ((insertMetric_perm m xs).mem_iff.mp hz) with
        rfl | hz''
      · exact le_of_not_le hle
      · exact hx z hz''

/-- The backtest result is sorted ascending by score. -/
theorem sortByScore_sorted (l : List BacktestMetric) :
    List.Pairwise (fun a b => a.score ≤ b.score) (sortByScore l) := by
  induction l with
  | nil => simp [sortByScore]
  | cons m ms ih =>
    unfold sortByScore
    exact insertMetric_sorted m (sortByScore ms) ih

/-- Field equations of a produced backtest metric: the stored mape/wape are
the 4-decimal roundings of the raw walk-forward metrics, the score is the
rounding of the raw composite, and at least one sample was used. -/
theorem backtest_metric_spec (y : List ℝ) (c : BacktestCandidate)
    (m : BacktestMetric) (h : backtest_metric y c = some m) :
    m.model_type = c.model_id ∧
    m.period_count = (walkSamples c y).length ∧
    1 ≤ (walkSamples c y).length ∧
    m.mape = round4 (rawMape (walkSamples c y)) ∧
    m.wape = round4 (rawWape (walkSamples c y)) ∧
    m.score = round4 (rawMape (walkSamples c y) +
      rawWape (walkSamples c y) * (1/4)) := by
  unfold backtest_metric at h
  dsimp only at h
  split_ifs at h with h1 h2
  cases h
  refine ⟨rfl, rfl, ?_, rfl, rfl, rfl⟩
  omega

/-- A candidate with enough history always yields a metric row. -/
theorem backtest_metric_isSome (y : List ℝ) (c : BacktestCandidate)
    (hlt : max 3 c.min_data_months < y.length) :
    ∃ m, backtest_metric y c = some m ∧ m.model_type = c.model_id := by
  unfold backtest_metric
  rw [if_neg (not_le.mpr hlt)]
  have hslen : (walkSamples c y).length =
      y.length - max (max 3 c.min_data_months) (y.length - 6) := by
    unfold walkSamples
    dsimp only
    rw [List.length_map, List.length_map, List.length_range]
  have hmax : max (max 3 c.min_data_months) (y.length - 6) < y.length :=
    max_lt hlt (by omega)
  have hne : ¬((walkSamples c y).length = 0) := by
    rw [hslen]
    omega
  rw [if_neg hne]
  exact ⟨_, rfl, rfl⟩

/-- C6 amended: for every history series and candidate set, the ranking has
an entry exactly for the candidates with at least one usable walk-forward
sample (a model whose history does not exceed `max(3, minDataMonths)` is
excluded entirely); each entry's stored score is the composite
`mape + 0.25·wape` computed from the raw (unrounded) metrics and then rounded
to 4 decimals — which can differ in the last decimal from recombining the
stored rounded `mape`/`wape` fields; and the sequence is sorted ascending by
score. -/
theorem backtest_ranking_contract :
    ∀ (cs : List BacktestCandidate) (y : List ℝ),
      (∀ m ∈ run_backtests cs y, ∃ c ∈ cs,
        backtest_metric y c = some m ∧ m.model_type = c.model_id ∧
        1 ≤ m.period_count ∧
        m.mape = round4 (rawMape (walkSamples c y)) ∧
        m.wape = round4 (rawWape (walkSamples c y)) ∧
        m.score = round4 (rawMape (walkSamples c y) +
          rawWape (walkSamples c y) * (1/4))) ∧
      (∀ c ∈ cs, max 3 c.min_data_months < y.length →
        ∃ m ∈ run_backtests cs y, m.model_type = c.model_id) ∧
      List.Pairwise (fun a b => a.score ≤ b.score) (run_backtests cs y) := by
  intro cs y
  refine ⟨?_, ?_, ?_⟩
  · intro m hm
    unfold run_backtests at hm
    rcases List.mem_filterMap.mp ((sortByScore_perm _).mem_iff.mp hm) with
      ⟨c, hc, hcm⟩
    have hsp := backtest_metric_spec y c m hcm
    refine ⟨c, hc, hcm, hsp.1, ?_, hsp.2.2.2.1, hsp.2.2.2.2.1,
      hsp.2.2.2.2.2⟩
    rw [hsp.2.1]
    exact hsp.2.2.1
  · intro c hc hlt
    rcases backtest_metric_isSome y c hlt with ⟨m, hm, hmt⟩
    refine ⟨m, ?_, hmt⟩
    unfold run_backtests
    exact (sortByScore_perm _).mem_iff.mpr
      (List.mem_filterMap.mpr ⟨c, hc, hm⟩)
  · unfold run_backtests
    exact sortByScore_sorted _

/-- Witness for C6 amended: the MovingAverage candidate on the 4-point
history yields a non-empty, score-sorted ranking. -/
theorem backtest_ranking_contract_witness :
    run_backtests [maCandidate] c6Hist ≠ [] ∧
    List.Pairwise (fun a b => a.score ≤ b.score)
      (run_backtests [maCandidate] c6Hist) := by
  have h := backtest_ranking_contract [maCandidate] c6Hist
  rcases h.2.1 maCandidate (List.mem_singleton.mpr rfl) (by decide) with
    ⟨m, hm, _⟩
  refine ⟨?_, h.2.2⟩
  intro he
  rw [he] at hm
  cases hm

/-! ## Concrete evaluation of the backtest on history [1, 1, 1, 3] -/

/-- Weighted average of the training prefix [1, 1, 1]. -/
theorem c6_avg111 : specLinWeightedAvg [(1 : ℝ), 1, 1] 3 = 1 := by
  unfold specLinWeightedAvg
  rw [show ([(1 : ℝ), 1, 1]).length = 3 from rfl]
  rw [Finset.sum_range_succ, Finset.sum_range_succ, Finset.sum_range_succ,
    Finset.sum_range_zero, Finset.sum_range_succ, Finset.sum_range_succ,
    Finset.sum_range_succ, Finset.sum_range_zero]
  norm_num [show nthY [(1 : ℝ), 1, 1] 0 = 1 from rfl,
    show nthY [(1 : ℝ), 1, 1] 1 = 1 from rfl,
    show nthY [(1 : ℝ), 1, 1] 2 = 1 from rfl]

/-- The one-point MovingAverage forecast on [1, 1, 1] is the spec contract
point. -/
theorem c6_ma_list : moving_average_forecast {} { y := [(1 : ℝ), 1, 1], last := 0 } 1 =
    [specMAPoint {} { y := [(1 : ℝ), 1, 1], last := 0 } 0] := by
  have h0 := moving_average_forecast_get? {}
    { y := [(1 : ℝ), 1, 1], last := 0 } 1 0 (by norm_num)
  have hlen : (moving_average_forecast {}
      { y := [(1 : ℝ), 1, 1], last := 0 } 1).length = 1 :=
    (ma_pointsOk {} { y := [(1 : ℝ), 1, 1], last := 0 } 1).1
  rcases List.length_eq_one.mp hlen with ⟨a, ha⟩
  rw [ha] at h0 ⊢
  rw [show (([a] : List ForecastPoint).get? 0) = some a from rfl] at h0
  injection h0 with h0
  rw [h0]

/-- The spec contract point on [1, 1, 1] predicts exactly 1. -/
theorem c6_point1 :
    (specMAPoint {} { y := [(1 : ℝ), 1, 1], last := 0 } 0).predicted_qty
      = 1 := by
  unfold specMAPoint
  dsimp only
  rw [show min (max 2 (min 12 ((({} : StrategyParams)).window.getD 6))).toNat
      ([(1 : ℝ), 1, 1]).length = 3 from rfl]
  rw [c6_avg111]
  rw [if_pos (by norm_num : 2 ≤ ([(1 : ℝ), 1, 1]).length)]
  rw [show lastVal [(1 : ℝ), 1, 1] = 1 from rfl,
    show prevVal [(1 : ℝ), 1, 1] = 1 from rfl]
  rw [show (1 : ℝ) + ((1 : ℝ) - 1) * (3/10) * (((0 : ℕ) : ℝ) + 1) *
      (max 0 (min 1 ((({} : StrategyParams)).trend_weight.getD (1/2))))
      = 1 by norm_num]
  rw [max_eq_right (by norm_num : (0 : ℝ) ≤ 1)]
  rw [round2_eval 1 100 (by norm_num) (by norm_num)]
  norm_num

/-- The backtest's one-step prediction on the training prefix is 1. -/
theorem c6_predict : maCandidate.predict [(1 : ℝ), 1, 1] = 1 := by
  show predictOneStep .moving_average {} [(1 : ℝ), 1, 1] = 1
  unfold predictOneStep strategy_forecast
  rw [c6_ma_list]
  exact c6_point1

/-- The single walk-forward sample: prediction 1 against actual 3. -/
theorem c6_samples : walkSamples maCandidate c6Hist = [((1 : ℝ), 3)] := by
  have h0 : walkSamples maCandidate c6Hist =
      [(maCandidate.predict [(1 : ℝ), 1, 1], (3 : ℝ))] := rfl
  rw [h0, c6_predict]

/-- Percentage error of the sample: 2/3. -/
theorem c6_pct : pctErrors [((1 : ℝ), 3)] = [2/3] := by
  unfold pctErrors
  rw [List.filterMap_cons, List.filterMap_nil]
  dsimp only
  rw [if_neg (by norm_num : ¬((3 : ℝ) = 0))]
  rw [show |((1 : ℝ)) - 3| = 2 by
    rw [abs_of_nonpos (by norm_num)]; norm_num]
  rw [show |(3 : ℝ)| = 3 from abs_of_nonneg (by norm_num)]

/-- Raw (unrounded) mape of the sample list: 200/3 %. -/
theorem c6_mape : rawMape [((1 : ℝ), 3)] = 200/3 := by
  unfold rawMape
  rw [c6_pct]
  rw [if_neg (by simp : ¬([(2/3 : ℝ)] = []))]
  rw [show ([(2/3 : ℝ)]).sum = 2/3 by simp]
  rw [show ([(2/3 : ℝ)]).length = 1 from rfl]
  norm_num

/-- Absolute error of the sample: 2. -/
theorem c6_abs : absErrors [((1 : ℝ), 3)] = [2] := by
  unfold absErrors
  rw [List.map_cons, List.map_nil]
  dsimp only
  rw [show |((1 : ℝ)) - 3| = 2 by
    rw [abs_of_nonpos (by norm_num)]; norm_num]

/-- Sum of absolute actuals: 3. -/
theorem c6_asum : actualSum [((1 : ℝ), 3)] = 3 := by
  unfold actualSum
  rw [List.map_cons, List.map_nil]
  dsimp only
  rw [show |(3 : ℝ)| = 3 from abs_of_nonneg (by norm_num)]
  simp

/-- Raw (unrounded) wape of the sample list: 200/3 %. -/
theorem c6_wape : rawWape [((1 : ℝ), 3)] = 200/3 := by
  unfold rawWape
  rw [c6_asum, c6_abs]
  rw [if_pos (by norm_num : (0 : ℝ) < 3)]
  rw [show ([(2 : ℝ)]).sum = 2 by simp]
  norm_num

/-- The metric row the backtest produces on [1, 1, 1, 3]: stored mape and
wape round to 66.6667, while the stored score rounds the raw composite to
83.3333. -/
theorem c6_metric : backtest_metric c6Hist maCandidate = some
    { model_type := "moving_average"
      mape := 666667/10000
      wape := 666667/10000
      rmse := round4 (rawRmse [((1 : ℝ), 3)])
      mae := round4 (rawMae [((1 : ℝ), 3)])
      bias := round4 (rawBias [((1 : ℝ), 3)])
      hit_rate := round4 (rawHitRate [((1 : ℝ), 3)])
      period_count := 1
      score := 833333/10000 } := by
  unfold backtest_metric
  dsimp only
  rw [if_neg (by decide :
    ¬(c6Hist.length ≤ max 3 maCandidate.min_data_months))]
  rw [c6_samples]
  split_ifs with hc
  · simp at hc
  refine congrArg some ?_
  rw [c6_mape, c6_wape]
  rw [round4_eval (200/3 : ℝ) 666667 (by norm_num) (by norm_num)]
  rw [round4_eval ((200/3 : ℝ) + (200/3) * (1/4)) 833333 (by norm_num)
    (by norm_num)]
  norm_num [BacktestMetric.mk.injEq, maCandidate]

/-- C6 counterexample: on history [1, 1, 1, 3] with the MovingAverage
candidate, the single ranking entry has mape = wape = 66.6667 but score =
83.3333, while mape + 0.25·wape of the stored fields is 83.333375 — the
entry's score does not equal its mape + 0.25·wape, because the score is
rounded from the raw composite. -/
theorem backtest_score_rounding_mismatch :
    (run_backtests [maCandidate] c6Hist).map
        (fun m => (m.mape, m.wape, m.score)) =
      [((666667/10000 : ℝ), 666667/10000, 833333/10000)] ∧
    (833333/10000 : ℝ) ≠ 666667/10000 + (666667/10000) * (1/4) := by
  refine ⟨?_, by norm_num⟩
  unfold run_backtests
  rw [List.filterMap_cons, List.filterMap_nil, c6_metric]
  rfl

end GenXSOP
